import Mathlib

/-!
# Asset ingestion pipeline: naming, classification and the two upload handlers

A shallow embedding of `assets.go`, `handler_upload_video.go` and
`handler_upload_thumbnail.go`.

* Go strings are Lean `String`s; `strings.Split` on the one-byte separator `/`
  works on the character list (`/` never occurs inside a multi-byte UTF-8
  sequence, so byte and character splitting agree).
* Bytes are natural numbers reduced `% 256`.
* `float64` values are the rationals they denote, every operation rounded to
  the nearest binary64 value, ties to even (`RN`).
* A handler is a function from the request and the outcomes of its
  collaborators to the response it writes and the list of effects it performs.
-/

namespace Tubely

deriving instance DecidableEq for Except

/-! ## Library functions used by `assets.go` -/

/-- The function `strings.Split(s, sep)` for a one-character separator, on character lists:
the pieces between the separators, always at least one piece. -/
def stringsSplit (sep : Char) : List Char → List (List Char)
  | [] => [[]]
  | c :: cs =>
    if c = sep then [] :: stringsSplit sep cs
    else
      match stringsSplit sep cs with
      | [] => [[c]]
      | p :: ps => (c :: p) :: ps

/-- The alphabet of `base64.URLEncoding`. -/
def encodeURL : List Char :=
  "ABCDEFGHIJKLMNOPQRSTUVWXYZabcdefghijklmnopqrstuvwxyz0123456789-_".data

/-- The character of a six-bit value in the URL-safe alphabet. -/
def b64Char (v : Nat) : Char := encodeURL.getD (v % 64) 'A'

/-- The encoder `base64.RawURLEncoding.EncodeToString` on a list of bytes: three bytes give
four characters, a final group of two gives three, of one gives two; there is
no padding. -/
def rawURLEncode : List Nat → List Char
  | a :: b :: c :: rest =>
    let v := (a % 256) * 65536 + (b % 256) * 256 + (c % 256)
    b64Char (v / 262144) :: b64Char (v / 4096) :: b64Char (v / 64) :: b64Char v ::
      rawURLEncode rest
  | [a, b] =>
    let v := (a % 256) * 65536 + (b % 256) * 256
    [b64Char (v / 262144), b64Char (v / 4096), b64Char (v / 64)]
  | [a] =>
    let v := (a % 256) * 65536
    [b64Char (v / 262144), b64Char (v / 4096)]
  | [] => []

/-- The encoder `base64.RawURLEncoding.EncodeToString`, as a string. -/
def EncodeToString (src : List Nat) : String := String.mk (rawURLEncode src)

/-- Lower-case hexadecimal digits of `n`, most significant first, with the given
number of digit positions available (a `uintptr` has sixteen). -/
def hexDigits : Nat → Nat → List Char → List Char
  | 0, _, acc => acc
  | fuel + 1, n, acc =>
    if n < 16 then Nat.digitChar n :: acc
    else hexDigits fuel (n / 16) (Nat.digitChar (n % 16) :: acc)

/-- The `0x…` rendering `fmt` gives a 64-bit pointer value. -/
def fmt0x64 (u : Nat) : String := "0x" ++ String.mk (hexDigits 16 (u % 2 ^ 64) [])

/-- An operand handed to `fmt.Sprintf`: a string value, or a pointer to a
string variable (the address it holds and the string stored there). -/
inductive FmtArg where
  | str (s : String)
  | strPtr (addr : Nat) (target : String)

/-- The bad-verb form `fmt` prints when `%s` is given a `*string`: the verb, the
type and the pointer value. -/
def pointerText (addr : Nat) : String :=
  "%!s(*string=" ++ (if addr = 0 then "<nil>" else fmt0x64 addr) ++ ")"

/-- What the verb `%s` prints for an operand. A string prints as itself. A
`*string` is not a valid operand of `%s`: `fmt` prints the bad-verb form
carrying the address, and never reads the target. -/
def fmtVerbS : FmtArg → String
  | .str s => s
  | .strPtr addr _ => pointerText addr

/-- The call `fmt.Sprintf("%s%s", a, b)`. -/
def SprintfSS (a b : FmtArg) : String := fmtVerbS a ++ fmtVerbS b

/-- The path elements kept by `filepath.Clean`, on a stack whose top is the last
element kept: empty and `.` elements are dropped, `..` removes the element
before it, is dropped at the root and is kept at the start of a relative
path. -/
def cleanElems (rooted : Bool) : List (List Char) → List (List Char) → List (List Char)
  | acc, [] => acc.reverse
  | acc, c :: cs =>
    if c = [] ∨ c = ['.'] then cleanElems rooted acc cs
    else if c = ['.', '.'] then
      match acc with
      | top :: below =>
        if top = ['.', '.'] then cleanElems rooted (c :: acc) cs
        else cleanElems rooted below cs
      | [] => if rooted then cleanElems rooted [] cs else cleanElems rooted [c] cs
    else cleanElems rooted (c :: acc) cs

/-- The function `filepath.Clean` for slash-separated paths. -/
def filepathClean (p : String) : String :=
  if p = "" then "."
  else
    let rooted := p.data.head? = some '/'
    let body := String.intercalate "/"
      ((cleanElems rooted [] (stringsSplit '/' p.data)).map String.mk)
    if rooted then "/" ++ body else if body = "" then "." else body

/-- The function `filepath.Join`: the elements from the first non-empty one on are joined
with the separator and the result is cleaned; no non-empty element gives the
empty string. -/
def filepathJoin (elem : List String) : String :=
  match elem.dropWhile (fun e => e = "") with
  | [] => ""
  | rest => filepathClean (String.intercalate "/" rest)

/-! ## `assets.go` -/

/-- Get content extension or set as `.bin`. -/
def getContentTypeExt (contentType : String) : String :=
  let parts := stringsSplit '/' contentType.data
  match parts with
  | [_, p1] => "." ++ String.mk p1
  | _ => ".bin"

/-- Get asset name with extension. `randRead` is the outcome of
`rand.Read(base)` on the 32-byte buffer, `addr` the address of the local
variable `thumbnailID`, whose address is what the source passes to `Sprintf`.
An `error` result stands for the panic. -/
def getAssetFullName (contentType : String) (randRead : Except String (List Nat))
    (addr : Nat) : Except String String :=
  match randRead with
  | .error _ => .error "failed to generate random bytes"
  | .ok base =>
    let thumbnailID := EncodeToString base
    let ext := getContentTypeExt contentType
    .ok (SprintfSS (.strPtr addr thumbnailID) (.str ext))

/-- Get asset's path on disk. -/
def getAssetDiskPath (assetsRoot assetFullName : String) : String :=
  filepathJoin [assetsRoot, assetFullName]

/-- Get asset's URL based on assets root folder. -/
def getAssetURL (assetFullName : String) : String :=
  "http://localhost:8091/assets/" ++ assetFullName

/-! ## binary64 arithmetic -/

/-- Round a rational to the nearest integer, ties to the even one. -/
def rne (x : ℚ) : ℤ :=
  let f := ⌊x⌋
  let r := x - f
  if r < 1 / 2 then f else if 1 / 2 < r then f + 1 else if f % 2 = 0 then f else f + 1

/-- Round to nearest binary64 value, ties to even: a non-zero `x` with
`2 ^ e ≤ |x| < 2 ^ (e + 1)` is rounded to a multiple of `2 ^ (e - 52)`. This is
the IEEE 754 rounding on the normal range `2 ^ (-1022) ≤ |x| < 2 ^ 1024`, which
holds every quotient of two non-zero 64-bit integers and every constant used
by the classifier. -/
def RN (x : ℚ) : ℚ :=
  if x = 0 then 0
  else
    let s : ℚ := (2 : ℚ) ^ (Int.log 2 |x| - 52)
    (rne (x / s) : ℚ) * s

/-- The conversion `float64(n)` of an integer. -/
def float64 (n : Int) : ℚ := RN (n : ℚ)

/-! ## `handler_upload_video.go`: the classifier -/

/-- One entry of `videoDetails.Streams`. -/
structure Stream where
  Width : Int
  Height : Int
deriving DecidableEq, Repr

/-- The variable `horizontalVid := 16.0 / 9.0`: the exact constant, rounded once. -/
def horizontalVid : ℚ := RN (16 / 9)

/-- The variable `verticalVid := 9.0 / 16.0`. -/
def verticalVid : ℚ := RN (9 / 16)

/-- The variable `maxDifference := 0.1`. -/
def maxDifference : ℚ := RN (1 / 10)

/-- The quotient `float64(Width) / float64(Height)` for a non-zero height. -/
def aspectRatioFloat (Width Height : Int) : ℚ := RN (float64 Width / float64 Height)

/-- The first test of the classifier: the ratio is strictly inside the band
around `horizontalVid`, both bounds computed in binary64. -/
def inHorizontalBand (r : ℚ) : Prop :=
  r < RN (horizontalVid + maxDifference) ∧ r > RN (horizontalVid - maxDifference)

/-- The second test of the classifier, around `verticalVid`. -/
def inVerticalBand (r : ℚ) : Prop :=
  r < RN (verticalVid + maxDifference) ∧ r > RN (verticalVid - maxDifference)

instance (r : ℚ) : Decidable (inHorizontalBand r) := by
  unfold inHorizontalBand; infer_instance

instance (r : ℚ) : Decidable (inVerticalBand r) := by
  unfold inVerticalBand; infer_instance

/-- The classification step of `getVideoAspectRatio` on the first stream. A zero
height makes the quotient an infinity or a NaN, which fails a comparison of
each band, so the result is `other`. -/
def classifyAspect (Width Height : Int) : String :=
  if Height = 0 then "other"
  else if inHorizontalBand (aspectRatioFloat Width Height) then "16:9"
  else if inVerticalBand (aspectRatioFloat Width Height) then "9:16"
  else "other"

/-- Check video at file path and return its aspect ratio. `ffprobe` is the run
of the external probe on a path (its standard output, or the error of
`command.Run`), `unmarshal` is `json.Unmarshal` into `videoDetails`. -/
def getVideoAspectRatio (ffprobe : String → Except String String)
    (unmarshal : String → Except String (List Stream)) (filePath : String) :
    Except String String :=
  match ffprobe filePath with
  | .error err => .error ("ffprobe error: " ++ err)
  | .ok buffer =>
    match unmarshal buffer with
    | .error err => .error ("couldn't parse ffprobe output: " ++ err)
    | .ok streams =>
      match streams with
      | [] => .error "no video streams found"
      | s0 :: _ => .ok (classifyAspect s0.Width s0.Height)

/-! ## The upload handlers -/

/-- A `uuid.UUID`, as the 128-bit number it holds. -/
abbrev UUID := Nat

/-- Modelled from the spec: `database.Video` is declared outside the given
sources. The owning record has an owner, the two reference fields this
pipeline may overwrite, and further columns the handlers never touch. -/
structure Video where
  ID : UUID
  UserID : UUID
  ThumbnailURL : Option String
  VideoURL : Option String
  Rest : String
deriving DecidableEq, Repr

/-- The fields of `apiConfig` the handlers read. -/
structure apiConfig where
  jwtSecret : String
  assetsRoot : String
  s3Bucket : String
  s3Region : String

/-- The header of an uploaded form part: its `Content-Type` value. -/
structure PartHeader where
  contentType : String

/-- What the handlers read from the request: the path value `videoID`, the
result of `auth.GetBearerToken` on the headers, the result of
`ParseMultipartForm`, and the result of `FormFile` for a field name (for the
video handler, on the body capped at `1 << 30` bytes). Parsing the form keeps
file parts in memory up to the given limit and writes the rest to files in the
temporary directory: `formSpool maxMemory` names the files written when the
form is parsed with that limit, none when the parts fit in memory. -/
structure Request where
  pathVideoID : String
  bearerToken : Except String String
  parseMultipartForm : Except String Unit
  formFile : String → Except String PartHeader
  formSpool : Nat → List String

/-- The outcomes of the collaborators and system calls a handler makes. -/
structure Deps where
  uuidParse : String → Except String UUID
  validateJWT : String → String → Except String UUID
  getVideo : UUID → Except String Video
  updateVideo : Video → Except String Unit
  parseMediaType : String → Except String String
  createTemp : Except String String
  copyToTemp : Except String Unit
  seekStart : Except String Unit
  ffprobe : String → Except String String
  unmarshal : String → Except String (List Stream)
  randRead : Except String (List Nat)
  nameAddr : Nat
  putObject : String → String → String → Except String Unit
  osCreate : String → Except String Unit
  copyToAsset : Except String Unit

/-- Whether a call returned without error. -/
def succeeded {α : Type} : Except String α → Bool
  | .ok _ => true
  | .error _ => false

/-- The calls a handler makes that touch the world, in the order made. -/
inductive Effect where
  | logUpload (videoID userID : UUID)
  | parseForm (maxMemory : Nat) (spooled : List String)
  | logPath (path : String)
  | createTemp (result : Except String String)
  | copyToTemp (name : String) (ok : Bool)
  | seekTemp (name : String) (ok : Bool)
  | probe (path : String)
  | closeTemp (name : String)
  | removeTemp (name : String)
  | closeUpload
  | putObject (bucket key contentType : String) (ok : Bool)
  | updateVideo (v : Video) (ok : Bool)
  | createAsset (path : String) (ok : Bool)
  | copyToAsset (path : String) (ok : Bool)
  | closeAsset (path : String)
deriving DecidableEq

/-- Modelled from the spec: `respondWithError` and `respondWithJSON` are defined
outside the given sources. A response is a structured error object with one
status code, or the serialized record with a success status; this records the
arguments of the call. `panicked` is a handler that panicked before
responding. -/
inductive Response where
  | error (code : Nat) (msg : String) (err : Option String)
  | json (code : Nat) (payload : Video)
  | panicked (msg : String)
deriving DecidableEq

/-- The constant `http.StatusOK`. -/
def StatusOK : Nat := 200
/-- The constant `http.StatusBadRequest`. -/
def StatusBadRequest : Nat := 400
/-- The constant `http.StatusUnauthorized`. -/
def StatusUnauthorized : Nat := 401
/-- The constant `http.StatusInternalServerError`. -/
def StatusInternalServerError : Nat := 500

/-- The result of running a handler. -/
structure Outcome where
  response : Response
  effects : List Effect
deriving DecidableEq

/-- Return at once with one response and no further effect. -/
def respond (resp : Response) : Outcome := ⟨resp, []⟩

/-- Perform an effect, then continue. -/
def Outcome.after (e : Effect) (o : Outcome) : Outcome := ⟨o.response, e :: o.effects⟩

/-- A `defer`: the effect runs when the rest of the function has finished,
whichever way it finished. -/
def Outcome.deferred (e : Effect) (o : Outcome) : Outcome := ⟨o.response, o.effects ++ [e]⟩

/-- The constant `defaultMaxMemory` of `net/http`, the limit with which
`FormFile` parses a form that has not been parsed yet. -/
def defaultMaxMemory : Nat := 32 <<< 20

/-- The `switch aspectRatio` of `handlerUploadVideo`. -/
def directoryOf (aspectRatio : String) : String :=
  if aspectRatio = "16:9" then "landscape"
  else if aspectRatio = "9:16" then "portrait"
  else "other"

/-- The upload of a video: `handlerUploadVideo`. The call `r.FormFile("video")`
is the first read of the form, so it parses it, with `defaultMaxMemory`. -/
def handlerUploadVideo (cfg : apiConfig) (r : Request) (d : Deps) : Outcome :=
  match d.uuidParse r.pathVideoID with
  | .error err =>
    respond (.error StatusInternalServerError "Couldn't parse file ID" (some err))
  | .ok videoID =>
  match r.bearerToken with
  | .error err => respond (.error StatusUnauthorized "Couldn't find JWT" (some err))
  | .ok token =>
  match d.validateJWT token cfg.jwtSecret with
  | .error err => respond (.error StatusUnauthorized "Couldn't validate JWT" (some err))
  | .ok userID =>
  match d.getVideo videoID with
  | .error err => respond (.error StatusInternalServerError "Couldn't find video" (some err))
  | .ok videoMeta =>
  if videoMeta.UserID ≠ userID then
    respond (.error StatusUnauthorized "Unauthorized to update this video" none)
  else
  Outcome.after (.parseForm defaultMaxMemory (r.formSpool defaultMaxMemory)) <|
  match r.formFile "video" with
  | .error err => respond (.error StatusBadRequest "Cannot parse form file" (some err))
  | .ok header =>
  Outcome.deferred .closeUpload <|
  match d.parseMediaType header.contentType with
  | .error err => respond (.error StatusBadRequest "Invalid content type" (some err))
  | .ok contentType =>
  if contentType ≠ "video/mp4" then
    respond (.error StatusBadRequest "Invalid file type" none)
  else
  match d.createTemp with
  | .error err =>
    Outcome.after (.createTemp (.error err)) <|
    respond (.error StatusInternalServerError "Couldn't create temporary file" (some err))
  | .ok tempFile =>
  Outcome.after (.createTemp (.ok tempFile)) <|
  Outcome.deferred (.removeTemp tempFile) <|
  Outcome.deferred (.closeTemp tempFile) <|
  Outcome.after (.copyToTemp tempFile (succeeded d.copyToTemp)) <|
  match d.copyToTemp with
  | .error err =>
    respond (.error StatusInternalServerError "Couldn't write file to disk" (some err))
  | .ok _ =>
  Outcome.after (.seekTemp tempFile (succeeded d.seekStart)) <|
  match d.seekStart with
  | .error err =>
    respond (.error StatusInternalServerError "Couldn't reset file pointer" (some err))
  | .ok _ =>
  Outcome.after (.probe tempFile) <|
  match getVideoAspectRatio d.ffprobe d.unmarshal tempFile with
  | .error err =>
    respond (.error StatusInternalServerError "Couldn't read video size" (some err))
  | .ok aspectRatio =>
  let directory := directoryOf aspectRatio
  match getAssetFullName contentType d.randRead d.nameAddr with
  | .error msg => respond (.panicked msg)
  | .ok name =>
  let fileKey := filepathJoin [directory, name]
  Outcome.after
    (.putObject cfg.s3Bucket fileKey contentType
      (succeeded (d.putObject cfg.s3Bucket fileKey contentType))) <|
  match d.putObject cfg.s3Bucket fileKey contentType with
  | .error err =>
    respond (.error StatusInternalServerError "Couldn't put object to S3" (some err))
  | .ok _ =>
  let videoURL := "https://" ++ cfg.s3Bucket ++ ".s3." ++ cfg.s3Region ++ ".amazonaws.com/" ++ fileKey
  let videoMeta := { videoMeta with VideoURL := some videoURL }
  Outcome.after (.updateVideo videoMeta (succeeded (d.updateVideo videoMeta))) <|
  match d.updateVideo videoMeta with
  | .error err =>
    respond (.error StatusInternalServerError "Couldn't update video" (some err))
  | .ok _ => respond (.json StatusOK videoMeta)

/-- The upload of a thumbnail: `handlerUploadThumbnail`. The form is parsed by
`r.ParseMultipartForm(maxMemory)` with `maxMemory = 10 << 20`; the later
`r.FormFile("thumbnail")` reads the parsed form. -/
def handlerUploadThumbnail (cfg : apiConfig) (r : Request) (d : Deps) : Outcome :=
  match d.uuidParse r.pathVideoID with
  | .error err => respond (.error StatusBadRequest "Invalid ID" (some err))
  | .ok videoID =>
  match r.bearerToken with
  | .error err => respond (.error StatusUnauthorized "Couldn't find JWT" (some err))
  | .ok token =>
  match d.validateJWT token cfg.jwtSecret with
  | .error err => respond (.error StatusUnauthorized "Couldn't validate JWT" (some err))
  | .ok userID =>
  Outcome.after (.logUpload videoID userID) <|
  Outcome.after (.parseForm (10 <<< 20) (r.formSpool (10 <<< 20))) <|
  match r.parseMultipartForm with
  | .error err =>
    respond (.error StatusInternalServerError "Cannot parse multipart form" (some err))
  | .ok _ =>
  match r.formFile "thumbnail" with
  | .error err => respond (.error StatusBadRequest "Cannot parse form file" (some err))
  | .ok header =>
  Outcome.deferred .closeUpload <|
  match d.parseMediaType header.contentType with
  | .error _ => respond (.error StatusBadRequest "Thumbnail content type is missing" none)
  | .ok contentType =>
  if contentType ≠ "image/jpeg" ∧ contentType ≠ "image/png" then
    respond (.error StatusBadRequest "Invalid file type" none)
  else
  match d.getVideo videoID with
  | .error err => respond (.error StatusInternalServerError "Couldn't find video" (some err))
  | .ok videoMeta =>
  if videoMeta.UserID ≠ userID then
    respond (.error StatusUnauthorized "Unauthorized" none)
  else
  match getAssetFullName contentType d.randRead d.nameAddr with
  | .error msg => respond (.panicked msg)
  | .ok thumbnailFullName =>
  let thumbnailPath := getAssetDiskPath cfg.assetsRoot thumbnailFullName
  Outcome.after (.createAsset thumbnailPath (succeeded (d.osCreate thumbnailPath))) <|
  match d.osCreate thumbnailPath with
  | .error err =>
    Outcome.after (.logPath thumbnailPath) <|
    respond (.error StatusInternalServerError "Unable to create file on server" (some err))
  | .ok _ =>
  Outcome.deferred (.closeAsset thumbnailPath) <|
  Outcome.after (.copyToAsset thumbnailPath (succeeded d.copyToAsset)) <|
  match d.copyToAsset with
  | .error err => respond (.error StatusInternalServerError "Error saving file" (some err))
  | .ok _ =>
  let thumbnailURL := getAssetURL thumbnailFullName
  let videoMeta := { videoMeta with ThumbnailURL := some thumbnailURL }
  Outcome.after (.updateVideo videoMeta (succeeded (d.updateVideo videoMeta))) <|
  match d.updateVideo videoMeta with
  | .error err => respond (.error StatusInternalServerError "Cannot save media data" (some err))
  | .ok _ => respond (.json StatusOK videoMeta)

/-! ## Reading the effects -/

/-- The form parses that wrote at least one file to the temporary directory. -/
def Effect.isSpool : Effect → Bool
  | .parseForm _ spooled => !spooled.isEmpty
  | _ => false

/-- The calls of `UpdateVideo`. -/
def Effect.isUpdate : Effect → Bool
  | .updateVideo _ _ => true
  | _ => false

/-- The files of the temporary directory after one effect: a form parse adds
the files it spools, `os.CreateTemp` adds the file it names, `os.Remove`
deletes the file it names. -/
def stepFiles (files : List String) : Effect → List String
  | .parseForm _ spooled => spooled ++ files
  | .createTemp (.ok name) => name :: files
  | .removeTemp name => files.filter (fun f => f ≠ name)
  | _ => files

/-- The files of the temporary directory after a run of effects. -/
def filesAfter (files : List String) (effects : List Effect) : List String :=
  effects.foldl stepFiles files

/-- The URL `handlerUploadVideo` builds for a key. -/
def videoURLOf (cfg : apiConfig) (fileKey : String) : String :=
  "https://" ++ cfg.s3Bucket ++ ".s3." ++ cfg.s3Region ++ ".amazonaws.com/" ++ fileKey

/-- The responses written by `respondWithError`. -/
def Response.isError : Response → Bool
  | .error _ _ _ => true
  | _ => false

/-- The status code of a response, when one was written. -/
def Response.code : Response → Option Nat
  | .error code _ _ => some code
  | .json code _ => some code
  | .panicked _ => none

/-- Every step before the metadata commit of `handlerUploadVideo` succeeds. -/
def videoStepsSucceed (cfg : apiConfig) (r : Request) (d : Deps) : Prop :=
  ∃ (videoID : UUID) (token : String) (videoMeta : Video) (header : PartHeader)
    (tempFile aspectRatio name : String),
    d.uuidParse r.pathVideoID = .ok videoID ∧
    r.bearerToken = .ok token ∧
    d.validateJWT token cfg.jwtSecret = .ok videoMeta.UserID ∧
    d.getVideo videoID = .ok videoMeta ∧
    r.formFile "video" = .ok header ∧
    d.parseMediaType header.contentType = .ok "video/mp4" ∧
    d.createTemp = .ok tempFile ∧
    d.copyToTemp = .ok () ∧
    d.seekStart = .ok () ∧
    getVideoAspectRatio d.ffprobe d.unmarshal tempFile = .ok aspectRatio ∧
    getAssetFullName "video/mp4" d.randRead d.nameAddr = .ok name ∧
    d.putObject cfg.s3Bucket (filepathJoin [directoryOf aspectRatio, name]) "video/mp4" = .ok ()

/-- Every step before the metadata commit of `handlerUploadThumbnail` succeeds. -/
def thumbnailStepsSucceed (cfg : apiConfig) (r : Request) (d : Deps) : Prop :=
  ∃ (videoID : UUID) (token : String) (videoMeta : Video) (header : PartHeader)
    (contentType name : String),
    d.uuidParse r.pathVideoID = .ok videoID ∧
    r.bearerToken = .ok token ∧
    d.validateJWT token cfg.jwtSecret = .ok videoMeta.UserID ∧
    r.parseMultipartForm = .ok () ∧
    r.formFile "thumbnail" = .ok header ∧
    d.parseMediaType header.contentType = .ok contentType ∧
    (contentType = "image/jpeg" ∨ contentType = "image/png") ∧
    d.getVideo videoID = .ok videoMeta ∧
    getAssetFullName contentType d.randRead d.nameAddr = .ok name ∧
    d.osCreate (getAssetDiskPath cfg.assetsRoot name) = .ok () ∧
    d.copyToAsset = .ok ()

/-! ## A sample deployment -/

/-- A configuration. -/
def demoConfig : apiConfig :=
  { jwtSecret := "secret", assetsRoot := "./assets", s3Bucket := "tubely", s3Region := "us-east-2" }

/-- A record owned by user `1`. -/
def demoVideo : Video :=
  { ID := 7, UserID := 1, ThumbnailURL := none, VideoURL := none, Rest := "boots" }

/-- A request for the record, carrying one part of the given declared type,
small enough to be held in memory. -/
def demoRequest (pathVideoID contentType : String) : Request :=
  { pathVideoID := pathVideoID
    bearerToken := .ok "token"
    parseMultipartForm := .ok ()
    formFile := fun _ => .ok ⟨contentType⟩
    formSpool := fun _ => [] }

/-- Collaborators that all succeed: the token belongs to `userID`, the probe
reports the given streams. `uuid.Parse` accepts one identifier. -/
def demoDeps (userID : UUID) (streams : List Stream) : Deps :=
  { uuidParse := fun s =>
      if s = "00000000-0000-0000-0000-000000000007" then .ok 7
      else .error "invalid UUID length"
    validateJWT := fun _ _ => .ok userID
    getVideo := fun _ => .ok demoVideo
    updateVideo := fun _ => .ok ()
    parseMediaType := fun s => .ok s
    createTemp := .ok "/tmp/video-upload.mp4-1"
    copyToTemp := .ok ()
    seekStart := .ok ()
    ffprobe := fun _ => .ok "streams"
    unmarshal := fun _ => .ok streams
    randRead := .ok (List.replicate 32 0)
    nameAddr := 0xc000014070
    putObject := fun _ _ _ => .ok ()
    osCreate := fun _ => .ok ()
    copyToAsset := .ok () }

/-- The reference stored for the sample upload. -/
def demoVideoURL : String :=
  "https://tubely.s3.us-east-2.amazonaws.com/landscape/%!s(*string=0xc000014070).mp4"

/-! # Theorems -/

/-! ## Rounding: monotonicity and evaluation -/

theorem rne_near {x : ℚ} {n : ℤ} (h1 : (n : ℚ) - 1 / 2 < x) (h2 : x < n + 1 / 2) :
    rne x = n := by
  unfold rne
  by_cases hn : (n : ℚ) ≤ x
  · have hf : ⌊x⌋ = n := by
      rw [Int.floor_eq_iff]; constructor
      · exact hn
      · linarith
    simp only [hf]
    rw [if_pos (by linarith)]
  · have hf : ⌊x⌋ = n - 1 := by
      rw [Int.floor_eq_iff]; push_cast; constructor <;> linarith
    simp only [hf]
    push_cast
    rw [if_neg (by linarith), if_pos (by linarith)]
    ring

theorem rne_intCast (n : ℤ) : rne (n : ℚ) = n :=
  rne_near (by linarith) (by linarith)

theorem rne_ge_floor (x : ℚ) : ⌊x⌋ ≤ rne x := by
  unfold rne
  simp only
  split_ifs <;> omega

theorem rne_le_floor_succ (x : ℚ) : rne x ≤ ⌊x⌋ + 1 := by
  unfold rne
  simp only
  split_ifs <;> omega

theorem rne_mono {x y : ℚ} (h : x ≤ y) : rne x ≤ rne y := by
  have hf : ⌊x⌋ ≤ ⌊y⌋ := Int.floor_mono h
  rcases lt_or_eq_of_le hf with hlt | heq
  · calc rne x ≤ ⌊x⌋ + 1 := rne_le_floor_succ x
      _ ≤ ⌊y⌋ := hlt
      _ ≤ rne y := rne_ge_floor y
  · unfold rne
    simp only [heq]
    have hxy : x - (⌊y⌋ : ℚ) ≤ y - (⌊y⌋ : ℚ) := by linarith
    split_ifs <;> first | omega | linarith

theorem two_zpow_pos (e : ℤ) : (0 : ℚ) < (2 : ℚ) ^ e := zpow_pos (by norm_num) e

theorem log2_lower {x : ℚ} (hx : 0 < x) : (2 : ℚ) ^ Int.log 2 x ≤ x := by
  have h := Int.zpow_log_le_self (R := ℚ) (b := 2) (by norm_num) hx
  simpa using h

theorem log2_upper (x : ℚ) : x < (2 : ℚ) ^ (Int.log 2 x + 1) := by
  have h := Int.lt_zpow_succ_log_self (R := ℚ) (b := 2) (by norm_num) x
  simpa using h

theorem log2_eq {x : ℚ} {e : ℤ} (h1 : (2 : ℚ) ^ e ≤ x) (h2 : x < (2 : ℚ) ^ (e + 1)) :
    Int.log 2 x = e := by
  have hx : 0 < x := lt_of_lt_of_le (two_zpow_pos e) h1
  have a : e ≤ Int.log 2 x := by
    rw [← Int.zpow_le_iff_le_log (by norm_num) hx]; simpa using h1
  have b : Int.log 2 x < e + 1 := by
    rw [← Int.lt_zpow_iff_log_lt (by norm_num) hx]; simpa using h2
  omega

/-- The value of `RN` on a positive argument, in terms of its binade. -/
theorem RN_pos_eq {x : ℚ} (hx : 0 < x) :
    RN x = (rne (x / (2 : ℚ) ^ (Int.log 2 x - 52)) : ℚ) * (2 : ℚ) ^ (Int.log 2 x - 52) := by
  unfold RN
  rw [if_neg (ne_of_gt hx), abs_of_pos hx]

theorem two_zpow_split (e : ℤ) : (2 : ℚ) ^ e = 2 ^ (52 : ℕ) * (2 : ℚ) ^ (e - 52) := by
  rw [← zpow_natCast, ← zpow_add₀ (by norm_num : (2 : ℚ) ≠ 0)]
  congr 1; push_cast; ring

theorem two_zpow_succ_split (e : ℤ) : (2 : ℚ) ^ (e + 1) = 2 ^ (53 : ℕ) * (2 : ℚ) ^ (e - 52) := by
  rw [← zpow_natCast, ← zpow_add₀ (by norm_num : (2 : ℚ) ≠ 0)]
  congr 1; push_cast; ring

/-- A positive `x` rounds to a value inside the closure of its binade. -/
theorem RN_binade {x : ℚ} (hx : 0 < x) :
    (2 : ℚ) ^ Int.log 2 x ≤ RN x ∧ RN x ≤ (2 : ℚ) ^ (Int.log 2 x + 1) := by
  have hs := two_zpow_pos (Int.log 2 x - 52)
  have lo := log2_lower hx
  have hi := log2_upper x
  rw [two_zpow_split] at lo
  rw [two_zpow_succ_split] at hi
  have q1 : ((2 ^ 52 : ℤ) : ℚ) ≤ x / (2 : ℚ) ^ (Int.log 2 x - 52) := by
    rw [le_div_iff₀ hs]; push_cast; exact lo
  have q2 : x / (2 : ℚ) ^ (Int.log 2 x - 52) ≤ ((2 ^ 53 : ℤ) : ℚ) := by
    rw [div_le_iff₀ hs]; push_cast; exact le_of_lt hi
  have r1 := rne_mono q1
  have r2 := rne_mono q2
  rw [rne_intCast] at r1 r2
  have r1q : ((2 ^ 52 : ℤ) : ℚ) ≤ (rne (x / (2 : ℚ) ^ (Int.log 2 x - 52)) : ℚ) := by
    exact_mod_cast r1
  have r2q : (rne (x / (2 : ℚ) ^ (Int.log 2 x - 52)) : ℚ) ≤ ((2 ^ 53 : ℤ) : ℚ) := by
    exact_mod_cast r2
  rw [RN_pos_eq hx, two_zpow_split (Int.log 2 x), two_zpow_succ_split (Int.log 2 x)]
  push_cast at r1q r2q
  constructor
  · exact mul_le_mul_of_nonneg_right r1q (le_of_lt hs)
  · exact mul_le_mul_of_nonneg_right r2q (le_of_lt hs)

theorem RN_pos {x : ℚ} (hx : 0 < x) : 0 < RN x :=
  lt_of_lt_of_le (two_zpow_pos _) (RN_binade hx).1

/-- Rounding is monotone on the positive rationals. -/
theorem RN_mono_pos {x y : ℚ} (hx : 0 < x) (h : x ≤ y) : RN x ≤ RN y := by
  have hy : 0 < y := lt_of_lt_of_le hx h
  have hl : Int.log 2 x ≤ Int.log 2 y := Int.log_mono_right hx h
  rcases lt_or_eq_of_le hl with hlt | heq
  · calc RN x ≤ (2 : ℚ) ^ (Int.log 2 x + 1) := (RN_binade hx).2
      _ ≤ (2 : ℚ) ^ Int.log 2 y := zpow_le_zpow_right₀ (by norm_num) (by omega)
      _ ≤ RN y := (RN_binade hy).1
  · rw [RN_pos_eq hx, RN_pos_eq hy, heq]
    have hs := two_zpow_pos (Int.log 2 y - 52)
    apply mul_le_mul_of_nonneg_right _ (le_of_lt hs)
    have : rne (x / (2 : ℚ) ^ (Int.log 2 y - 52)) ≤ rne (y / (2 : ℚ) ^ (Int.log 2 y - 52)) :=
      rne_mono (div_le_div_of_nonneg_right h (le_of_lt hs))
    exact_mod_cast this

/-- A non-positive argument rounds to a non-positive value. -/
theorem RN_nonpos {x : ℚ} (hx : x ≤ 0) : RN x ≤ 0 := by
  unfold RN
  split_ifs with h0
  · exact le_refl 0
  · have hs := two_zpow_pos (Int.log 2 |x| - 52)
    have hq : x / (2 : ℚ) ^ (Int.log 2 |x| - 52) ≤ ((0 : ℤ) : ℚ) := by
      rw [div_le_iff₀ hs]; simpa using hx
    have hr := rne_mono hq
    rw [rne_intCast] at hr
    have hrq : (rne (x / (2 : ℚ) ^ (Int.log 2 |x| - 52)) : ℚ) ≤ 0 := by exact_mod_cast hr
    exact mul_nonpos_of_nonpos_of_nonneg hrq (le_of_lt hs)

/-- Evaluation of `RN` at a positive argument whose binade `e` and rounded
significand `m` are given. -/
theorem RN_eval {x : ℚ} (e m : ℤ) (h1 : (2 : ℚ) ^ e ≤ x) (h2 : x < (2 : ℚ) ^ (e + 1))
    (h3 : (m : ℚ) - 1 / 2 < x / (2 : ℚ) ^ (e - 52))
    (h4 : x / (2 : ℚ) ^ (e - 52) < (m : ℚ) + 1 / 2) :
    RN x = (m : ℚ) * (2 : ℚ) ^ (e - 52) := by
  have hx : 0 < x := lt_of_lt_of_le (two_zpow_pos e) h1
  rw [RN_pos_eq hx, log2_eq h1 h2, rne_near h3 h4]

theorem rne_tie_even {x : ℚ} {n : ℤ} (hn : n % 2 = 0) (hx : x = (n : ℚ) - 1 / 2) :
    rne x = n := by
  have hf : ⌊x⌋ = n - 1 := by
    rw [Int.floor_eq_iff]; push_cast; constructor <;> linarith
  unfold rne
  simp only [hf]
  push_cast
  rw [if_neg (by linarith), if_neg (by linarith), if_neg (by omega)]
  ring

/-! ## The constants of the classifier -/

theorem horizontalVid_eq : horizontalVid = 2001599834386887 / 1125899906842624 := by
  unfold horizontalVid
  rw [RN_eval 0 8006399337547548 (by norm_num) (by norm_num) (by norm_num) (by norm_num)]
  norm_num

theorem maxDifference_eq : maxDifference = 3602879701896397 / 36028797018963968 := by
  unfold maxDifference
  rw [RN_eval (-4) 7205759403792794 (by norm_num) (by norm_num) (by norm_num) (by norm_num)]
  norm_num

theorem verticalVid_eq : verticalVid = 9 / 16 := by
  unfold verticalVid
  rw [RN_eval (-1) 5066549580791808 (by norm_num) (by norm_num) (by norm_num) (by norm_num)]
  norm_num

/-- The upper bound of the horizontal band, `horizontalVid + maxDifference`. -/
theorem horizontalUpper_eq :
    RN (horizontalVid + maxDifference) = 4228379650142299 / 2251799813685248 := by
  rw [horizontalVid_eq, maxDifference_eq,
    RN_eval 0 8456759300284598 (by norm_num) (by norm_num) (by norm_num) (by norm_num)]
  norm_num

/-- The lower bound of the horizontal band, `horizontalVid - maxDifference`. -/
theorem horizontalLower_eq :
    RN (horizontalVid - maxDifference) = 3778019687405249 / 2251799813685248 := by
  rw [horizontalVid_eq, maxDifference_eq,
    RN_eval 0 7556039374810498 (by norm_num) (by norm_num) (by norm_num) (by norm_num)]
  norm_num

/-- The upper bound of the vertical band, `verticalVid + maxDifference`. -/
theorem verticalUpper_eq :
    RN (verticalVid + maxDifference) = 5967269506265907 / 9007199254740992 := by
  rw [verticalVid_eq, maxDifference_eq,
    RN_eval (-1) 5967269506265907 (by norm_num) (by norm_num) (by norm_num) (by norm_num)]
  norm_num

/-- The lower bound of the vertical band, `verticalVid - maxDifference`: the
exact difference lies half-way between two binary64 values and goes to the
even one. -/
theorem verticalLower_eq :
    RN (verticalVid - maxDifference) = 4165829655317709 / 9007199254740992 := by
  rw [verticalVid_eq, maxDifference_eq]
  have hx : (0 : ℚ) < 9 / 16 - 3602879701896397 / 36028797018963968 := by norm_num
  rw [RN_pos_eq hx, log2_eq (e := -2) (by norm_num) (by norm_num),
    rne_tie_even (n := 8331659310635418) (by norm_num) (by norm_num)]
  norm_num

/-- Integers below `2 ^ 53` convert to `float64` without rounding. -/
theorem float64_exact {n : ℤ} (h0 : 0 < n) (h : n < 2 ^ 53) : float64 n = n := by
  unfold float64
  have hx : (0 : ℚ) < n := by exact_mod_cast h0
  have he : Int.log 2 (n : ℚ) < 53 := by
    rw [← Int.lt_zpow_iff_log_lt (by norm_num) hx]
    have h' : (n : ℚ) < 2 ^ (53 : ℕ) := by exact_mod_cast h
    norm_num
    linarith
  obtain ⟨k, hk⟩ : ∃ k : ℕ, (k : ℤ) = 52 - Int.log 2 (n : ℚ) :=
    ⟨(52 - Int.log 2 (n : ℚ)).toNat, Int.toNat_of_nonneg (by omega)⟩
  have hs : (2 : ℚ) ^ (Int.log 2 (n : ℚ) - 52) = ((2 : ℚ) ^ k)⁻¹ := by
    rw [show Int.log 2 (n : ℚ) - 52 = -(k : ℤ) by omega, zpow_neg, zpow_natCast]
  have hq : (n : ℚ) / ((2 : ℚ) ^ k)⁻¹ = ((n * 2 ^ k : ℤ) : ℚ) := by
    push_cast; field_simp
  rw [RN_pos_eq hx, hs, hq, rne_intCast]
  push_cast
  field_simp

theorem float64_pos {n : ℤ} (h0 : 0 < n) : 0 < float64 n :=
  RN_pos (by exact_mod_cast h0)

theorem float64_nonpos {n : ℤ} (h0 : n ≤ 0) : float64 n ≤ 0 :=
  RN_nonpos (by exact_mod_cast h0)

/-! ## Rounding at the edges of the bands -/

theorem RN_169_90 : RN (169 / 90 : ℚ) = 4228379650142299 / 2251799813685248 := by
  rw [RN_eval (x := (169 / 90 : ℚ)) (0) 8456759300284598 (by norm_num) (by norm_num) (by norm_num)
    (by norm_num)]
  norm_num

theorem RN_below_upperH : RN (8456759300284597 / 4503599627370496 : ℚ) = 8456759300284597 / 4503599627370496 := by
  rw [RN_eval (x := (8456759300284597 / 4503599627370496 : ℚ)) (0) 8456759300284597 (by norm_num) (by norm_num) (by norm_num)
    (by norm_num)]
  norm_num

theorem RN_lowerH : RN (3778019687405249 / 2251799813685248 : ℚ) = 3778019687405249 / 2251799813685248 := by
  rw [RN_eval (x := (3778019687405249 / 2251799813685248 : ℚ)) (0) 7556039374810498 (by norm_num) (by norm_num) (by norm_num)
    (by norm_num)]
  norm_num

theorem RN_151_90 : RN (151 / 90 : ℚ) = 7556039374810499 / 4503599627370496 := by
  rw [RN_eval (x := (151 / 90 : ℚ)) (0) 7556039374810499 (by norm_num) (by norm_num) (by norm_num)
    (by norm_num)]
  norm_num

theorem RN_53_80 : RN (53 / 80 : ℚ) = 5967269506265907 / 9007199254740992 := by
  rw [RN_eval (x := (53 / 80 : ℚ)) (-1) 5967269506265907 (by norm_num) (by norm_num) (by norm_num)
    (by norm_num)]
  norm_num

theorem RN_below_upperV : RN (5967269506265906 / 9007199254740992 : ℚ) = 5967269506265906 / 9007199254740992 := by
  rw [RN_eval (x := (5967269506265906 / 9007199254740992 : ℚ)) (-1) 5967269506265906 (by norm_num) (by norm_num) (by norm_num)
    (by norm_num)]
  norm_num

theorem RN_37_80 : RN (37 / 80 : ℚ) = 4165829655317709 / 9007199254740992 := by
  rw [RN_eval (x := (37 / 80 : ℚ)) (-2) 8331659310635418 (by norm_num) (by norm_num) (by norm_num)
    (by norm_num)]
  norm_num

theorem RN_above_lowerV : RN (8331659310635419 / 18014398509481984 : ℚ) = 8331659310635419 / 18014398509481984 := by
  rw [RN_eval (x := (8331659310635419 / 18014398509481984 : ℚ)) (-2) 8331659310635419 (by norm_num) (by norm_num) (by norm_num)
    (by norm_num)]
  norm_num

theorem RN_upperH : RN (4228379650142299 / 2251799813685248 : ℚ) = 4228379650142299 / 2251799813685248 := by
  rw [RN_eval (x := (4228379650142299 / 2251799813685248 : ℚ)) (0) 8456759300284598 (by norm_num) (by norm_num) (by norm_num)
    (by norm_num)]
  norm_num

theorem RN_17_32 : RN (17 / 32 : ℚ) = 17 / 32 := by
  rw [RN_eval (x := (17 / 32 : ℚ)) (-1) 4785074604081152 (by norm_num) (by norm_num) (by norm_num)
    (by norm_num)]
  norm_num

theorem RN_5_8 : RN (5 / 8 : ℚ) = 5 / 8 := by
  rw [RN_eval (x := (5 / 8 : ℚ)) (-1) 5629499534213120 (by norm_num) (by norm_num) (by norm_num)
    (by norm_num)]
  norm_num


/-! ## The bands in exact arithmetic -/

section Bands

variable {w h : ℤ}

theorem upperHorizontal_iff (hw : 0 < w) (hh : 0 < h) (hb : h < 2 ^ 45) :
    RN ((w : ℚ) / h) < 4228379650142299 / 2251799813685248 ↔ 90 * w < 169 * h := by
  have hwq : (0 : ℚ) < w := by exact_mod_cast hw
  have hhq : (0 : ℚ) < h := by exact_mod_cast hh
  have hbq : (h : ℚ) < 35184372088832 := by exact_mod_cast hb
  constructor
  · intro hlt
    by_contra hc
    have hc2 : (169 : ℚ) * h ≤ 90 * w := by
      have : 169 * h ≤ 90 * w := by omega
      exact_mod_cast this
    have hx : (169 / 90 : ℚ) ≤ (w : ℚ) / h := by
      rw [le_div_iff₀ hhq]; linarith
    have hm := RN_mono_pos (by norm_num) hx
    rw [RN_169_90] at hm
    linarith
  · intro hlt
    have h1 : (90 : ℚ) * w + 1 ≤ 169 * h := by
      have : 90 * w + 1 ≤ 169 * h := by omega
      exact_mod_cast this
    have hx : (w : ℚ) / h ≤ 8456759300284597 / 4503599627370496 := by
      rw [div_le_iff₀ hhq]; linarith
    have hm := RN_mono_pos (div_pos hwq hhq) hx
    rw [RN_below_upperH] at hm
    have : (8456759300284597 / 4503599627370496 : ℚ) < 4228379650142299 / 2251799813685248 := by
      norm_num
    linarith

theorem lowerHorizontal_iff (hw : 0 < w) (hh : 0 < h) (hb : h < 2 ^ 45) :
    3778019687405249 / 2251799813685248 < RN ((w : ℚ) / h) ↔ 151 * h ≤ 90 * w := by
  have hwq : (0 : ℚ) < w := by exact_mod_cast hw
  have hhq : (0 : ℚ) < h := by exact_mod_cast hh
  have hbq : (h : ℚ) < 35184372088832 := by exact_mod_cast hb
  constructor
  · intro hlt
    by_contra hc
    have h1 : (90 : ℚ) * w + 1 ≤ 151 * h := by
      have : 90 * w + 1 ≤ 151 * h := by omega
      exact_mod_cast this
    have hx : (w : ℚ) / h ≤ 3778019687405249 / 2251799813685248 := by
      rw [div_le_iff₀ hhq]; linarith
    have hm := RN_mono_pos (div_pos hwq hhq) hx
    rw [RN_lowerH] at hm
    linarith
  · intro hle
    have hc2 : (151 : ℚ) * h ≤ 90 * w := by exact_mod_cast hle
    have hx : (151 / 90 : ℚ) ≤ (w : ℚ) / h := by
      rw [le_div_iff₀ hhq]; linarith
    have hm := RN_mono_pos (by norm_num) hx
    rw [RN_151_90] at hm
    have : (3778019687405249 / 2251799813685248 : ℚ) < 7556039374810499 / 4503599627370496 := by
      norm_num
    linarith

theorem upperVertical_iff (hw : 0 < w) (hh : 0 < h) (hb : h < 2 ^ 45) :
    RN ((w : ℚ) / h) < 5967269506265907 / 9007199254740992 ↔ 80 * w < 53 * h := by
  have hwq : (0 : ℚ) < w := by exact_mod_cast hw
  have hhq : (0 : ℚ) < h := by exact_mod_cast hh
  have hbq : (h : ℚ) < 35184372088832 := by exact_mod_cast hb
  constructor
  · intro hlt
    by_contra hc
    have hc2 : (53 : ℚ) * h ≤ 80 * w := by
      have : 53 * h ≤ 80 * w := by omega
      exact_mod_cast this
    have hx : (53 / 80 : ℚ) ≤ (w : ℚ) / h := by
      rw [le_div_iff₀ hhq]; linarith
    have hm := RN_mono_pos (by norm_num) hx
    rw [RN_53_80] at hm
    linarith
  · intro hlt
    have h1 : (80 : ℚ) * w + 1 ≤ 53 * h := by
      have : 80 * w + 1 ≤ 53 * h := by omega
      exact_mod_cast this
    have hx : (w : ℚ) / h ≤ 5967269506265906 / 9007199254740992 := by
      rw [div_le_iff₀ hhq]; linarith
    have hm := RN_mono_pos (div_pos hwq hhq) hx
    rw [RN_below_upperV] at hm
    have : (5967269506265906 / 9007199254740992 : ℚ) < 5967269506265907 / 9007199254740992 := by
      norm_num
    linarith

theorem lowerVertical_iff (hw : 0 < w) (hh : 0 < h) (hb : h < 2 ^ 45) :
    4165829655317709 / 9007199254740992 < RN ((w : ℚ) / h) ↔ 37 * h < 80 * w := by
  have hwq : (0 : ℚ) < w := by exact_mod_cast hw
  have hhq : (0 : ℚ) < h := by exact_mod_cast hh
  have hbq : (h : ℚ) < 35184372088832 := by exact_mod_cast hb
  constructor
  · intro hlt
    by_contra hc
    have hc2 : (80 : ℚ) * w ≤ 37 * h := by
      have : 80 * w ≤ 37 * h := by omega
      exact_mod_cast this
    have hx : (w : ℚ) / h ≤ 37 / 80 := by
      rw [div_le_iff₀ hhq]; linarith
    have hm := RN_mono_pos (div_pos hwq hhq) hx
    rw [RN_37_80] at hm
    linarith
  · intro hlt
    have h1 : (37 : ℚ) * h + 1 ≤ 80 * w := by
      have : 37 * h + 1 ≤ 80 * w := by omega
      exact_mod_cast this
    have hx : (8331659310635419 / 18014398509481984 : ℚ) ≤ (w : ℚ) / h := by
      rw [le_div_iff₀ hhq]; linarith
    have hm := RN_mono_pos (by norm_num) hx
    rw [RN_above_lowerV] at hm
    have : (4165829655317709 / 9007199254740992 : ℚ) < 8331659310635419 / 18014398509481984 := by
      norm_num
    linarith

end Bands

/-! ## The classifier in exact arithmetic -/

theorem aspectRatioFloat_eq {w h : ℤ} (hw : 0 < w) (hw2 : w < 2 ^ 53) (hh : 0 < h)
    (hh2 : h < 2 ^ 53) : aspectRatioFloat w h = RN ((w : ℚ) / h) := by
  unfold aspectRatioFloat
  rw [float64_exact hw hw2, float64_exact hh hh2]

theorem aspectRatioFloat_nonpos {w h : ℤ} (hw : w ≤ 0) (hh : 0 < h) :
    aspectRatioFloat w h ≤ 0 :=
  RN_nonpos (div_nonpos_of_nonpos_of_nonneg (float64_nonpos hw) (le_of_lt (float64_pos hh)))

theorem RN_two_pow_53 : RN (9007199254740992 : ℚ) = 9007199254740992 := by
  rw [RN_eval (x := (9007199254740992 : ℚ)) 53 4503599627370496 (by norm_num) (by norm_num)
    (by norm_num) (by norm_num)]
  norm_num

theorem RN_256 : RN (256 : ℚ) = 256 := by
  rw [RN_eval (x := (256 : ℚ)) 8 4503599627370496 (by norm_num) (by norm_num)
    (by norm_num) (by norm_num)]
  norm_num

/-- A width of at least `2 ^ 53` over a height below `2 ^ 45` gives a quotient of
at least `256`. -/
theorem aspectRatioFloat_large {w h : ℤ} (hh : 0 < h) (hb : h < 2 ^ 45) (hw : 2 ^ 53 ≤ w) :
    256 ≤ aspectRatioFloat w h := by
  have hhq : (0 : ℚ) < h := by exact_mod_cast hh
  have hbq : (h : ℚ) < 35184372088832 := by exact_mod_cast hb
  have hwq : (9007199254740992 : ℚ) ≤ (w : ℚ) := by exact_mod_cast hw
  have hfw : (9007199254740992 : ℚ) ≤ float64 w := by
    have := RN_mono_pos (by norm_num) hwq
    rw [RN_two_pow_53] at this
    exact this
  unfold aspectRatioFloat
  rw [float64_exact hh (by omega)]
  have hq : (256 : ℚ) ≤ float64 w / h := by
    rw [le_div_iff₀ hhq]; linarith
  have := RN_mono_pos (by norm_num) hq
  rw [RN_256] at this
  exact this

theorem inHorizontalBand_iff_small {w h : ℤ} (hh : 0 < h) (hb : h < 2 ^ 45) (hw : w < 2 ^ 53) :
    inHorizontalBand (aspectRatioFloat w h) ↔ 151 * h ≤ 90 * w ∧ 90 * w < 169 * h := by
  unfold inHorizontalBand
  rw [horizontalUpper_eq, horizontalLower_eq]
  rcases le_or_lt w 0 with hw0 | hw0
  · have hr := aspectRatioFloat_nonpos hw0 hh
    constructor
    · rintro ⟨-, h2⟩
      have : (0 : ℚ) < 3778019687405249 / 2251799813685248 := by norm_num
      linarith
    · rintro ⟨h1, -⟩
      omega
  · rw [aspectRatioFloat_eq hw0 hw hh (by omega), gt_iff_lt,
      upperHorizontal_iff hw0 hh hb, lowerHorizontal_iff hw0 hh hb]
    exact and_comm

theorem inHorizontalBand_iff {w h : ℤ} (hh : 0 < h) (hb : h < 2 ^ 45) :
    inHorizontalBand (aspectRatioFloat w h) ↔ 151 * h ≤ 90 * w ∧ 90 * w < 169 * h := by
  rcases lt_or_le w (2 ^ 53) with hw | hw
  · exact inHorizontalBand_iff_small hh hb hw
  · have hr := aspectRatioFloat_large hh hb hw
    unfold inHorizontalBand
    rw [horizontalUpper_eq]
    constructor
    · rintro ⟨h1, -⟩
      have : (4228379650142299 / 2251799813685248 : ℚ) < 256 := by norm_num
      linarith
    · rintro ⟨-, h2⟩
      omega

theorem inVerticalBand_iff_small {w h : ℤ} (hh : 0 < h) (hb : h < 2 ^ 45) (hw : w < 2 ^ 53) :
    inVerticalBand (aspectRatioFloat w h) ↔ 37 * h < 80 * w ∧ 80 * w < 53 * h := by
  unfold inVerticalBand
  rw [verticalUpper_eq, verticalLower_eq]
  rcases le_or_lt w 0 with hw0 | hw0
  · have hr := aspectRatioFloat_nonpos hw0 hh
    constructor
    · rintro ⟨-, h2⟩
      have : (0 : ℚ) < 4165829655317709 / 9007199254740992 := by norm_num
      linarith
    · rintro ⟨h1, -⟩
      omega
  · rw [aspectRatioFloat_eq hw0 hw hh (by omega), gt_iff_lt,
      upperVertical_iff hw0 hh hb, lowerVertical_iff hw0 hh hb]
    exact and_comm

theorem inVerticalBand_iff {w h : ℤ} (hh : 0 < h) (hb : h < 2 ^ 45) :
    inVerticalBand (aspectRatioFloat w h) ↔ 37 * h < 80 * w ∧ 80 * w < 53 * h := by
  rcases lt_or_le w (2 ^ 53) with hw | hw
  · exact inVerticalBand_iff_small hh hb hw
  · have hr := aspectRatioFloat_large hh hb hw
    unfold inVerticalBand
    rw [verticalUpper_eq]
    constructor
    · rintro ⟨h1, -⟩
      have : (5967269506265907 / 9007199254740992 : ℚ) < 256 := by norm_num
      linarith
    · rintro ⟨-, h2⟩
      omega

/-- The classifier as a comparison of integers. -/
theorem classifyAspect_int {w h : ℤ} (hh : 0 < h) (hb : h < 2 ^ 45) :
    classifyAspect w h =
      if 151 * h ≤ 90 * w ∧ 90 * w < 169 * h then "16:9"
      else if 37 * h < 80 * w ∧ 80 * w < 53 * h then "9:16"
      else "other" := by
  unfold classifyAspect
  rw [if_neg (ne_of_gt hh)]
  simp only [inHorizontalBand_iff hh hb, inVerticalBand_iff hh hb]

theorem horizontal_rat_iff {w h : ℤ} (hh : 0 < h) :
    (151 * h ≤ 90 * w ∧ 90 * w < 169 * h) ↔
      ((16 / 9 - 1 / 10 : ℚ) ≤ (w : ℚ) / h ∧ (w : ℚ) / h < 16 / 9 + 1 / 10) := by
  have hhq : (0 : ℚ) < h := by exact_mod_cast hh
  rw [le_div_iff₀ hhq, div_lt_iff₀ hhq]
  constructor
  · rintro ⟨h1, h2⟩
    have h1q : (151 : ℚ) * h ≤ 90 * w := by exact_mod_cast h1
    have h2q : (90 : ℚ) * w < 169 * h := by exact_mod_cast h2
    constructor <;> linarith
  · rintro ⟨h1, h2⟩
    have h1q : (151 : ℚ) * h ≤ 90 * w := by linarith
    have h2q : (90 : ℚ) * w < 169 * h := by linarith
    exact ⟨by exact_mod_cast h1q, by exact_mod_cast h2q⟩

theorem vertical_rat_iff {w h : ℤ} (hh : 0 < h) :
    (37 * h < 80 * w ∧ 80 * w < 53 * h) ↔ |(w : ℚ) / h - 9 / 16| < 1 / 10 := by
  have hhq : (0 : ℚ) < h := by exact_mod_cast hh
  rw [abs_lt, lt_sub_iff_add_lt, sub_lt_iff_lt_add, lt_div_iff₀ hhq, div_lt_iff₀ hhq]
  constructor
  · rintro ⟨h1, h2⟩
    have h1q : (37 : ℚ) * h < 80 * w := by exact_mod_cast h1
    have h2q : (80 : ℚ) * w < 53 * h := by exact_mod_cast h2
    constructor <;> linarith
  · rintro ⟨h1, h2⟩
    have h1q : (37 : ℚ) * h < 80 * w := by linarith
    have h2q : (80 : ℚ) * w < 53 * h := by linarith
    exact ⟨by exact_mod_cast h1q, by exact_mod_cast h2q⟩

/-- The classifier in terms of the exact ratio `w / h`. -/
theorem classifyAspect_rat {w h : ℤ} (hh : 0 < h) (hb : h < 2 ^ 45) :
    classifyAspect w h =
      if (16 / 9 - 1 / 10 : ℚ) ≤ (w : ℚ) / h ∧ (w : ℚ) / h < 16 / 9 + 1 / 10 then "16:9"
      else if |(w : ℚ) / h - 9 / 16| < 1 / 10 then "9:16"
      else "other" := by
  rw [classifyAspect_int hh hb]
  simp only [horizontal_rat_iff hh, vertical_rat_iff hh]

theorem bands_disjoint_rat (x : ℚ) :
    ¬(((16 / 9 - 1 / 10 : ℚ) ≤ x ∧ x < 16 / 9 + 1 / 10) ∧ |x - 9 / 16| < 1 / 10) := by
  rintro ⟨⟨h1, -⟩, h2⟩
  rw [abs_lt] at h2
  linarith [h2.2]

theorem classifyAspect_closed (w h : ℤ) :
    classifyAspect w h = "16:9" ∨ classifyAspect w h = "9:16" ∨ classifyAspect w h = "other" := by
  unfold classifyAspect
  split_ifs <;> simp

/-- A horizontal stream, transposed, is a vertical stream, whatever the size of
the two dimensions. -/
theorem transposed_horizontal_is_vertical {w h : ℤ} (hw : 0 < w) (hh : 0 < h)
    (hc : classifyAspect w h = "16:9") : classifyAspect h w = "9:16" := by
  have ha := float64_pos hw
  have hb := float64_pos hh
  have hband : inHorizontalBand (aspectRatioFloat w h) := by
    unfold classifyAspect at hc
    rw [if_neg (ne_of_gt hh)] at hc
    by_contra hn
    rw [if_neg hn] at hc
    split_ifs at hc <;> exact absurd hc (by decide)
  unfold inHorizontalBand aspectRatioFloat at hband
  rw [horizontalUpper_eq, horizontalLower_eq] at hband
  obtain ⟨hU, hL⟩ := hband
  have hq := div_pos ha hb
  have h1 : float64 w / float64 h < 4228379650142299 / 2251799813685248 := by
    by_contra hn
    have := RN_mono_pos (by norm_num) (not_lt.mp hn)
    rw [RN_upperH] at this
    linarith
  have h2 : 3778019687405249 / 2251799813685248 < float64 w / float64 h := by
    by_contra hn
    have := RN_mono_pos hq (not_lt.mp hn)
    rw [RN_lowerH] at this
    linarith
  rw [div_lt_iff₀ hb] at h1
  rw [lt_div_iff₀ hb] at h2
  have h3 : (17 / 32 : ℚ) ≤ float64 h / float64 w := by
    rw [le_div_iff₀ ha]; linarith
  have h4 : float64 h / float64 w ≤ 5 / 8 := by
    rw [div_le_iff₀ ha]; linarith
  have r3 := RN_mono_pos (by norm_num) h3
  have r4 := RN_mono_pos (div_pos hb ha) h4
  rw [RN_17_32] at r3
  rw [RN_5_8] at r4
  have nH : ¬inHorizontalBand (aspectRatioFloat h w) := by
    unfold inHorizontalBand aspectRatioFloat
    rw [horizontalUpper_eq, horizontalLower_eq]
    rintro ⟨-, h6⟩
    have : (5 / 8 : ℚ) < 3778019687405249 / 2251799813685248 := by norm_num
    linarith
  have yV : inVerticalBand (aspectRatioFloat h w) := by
    unfold inVerticalBand aspectRatioFloat
    rw [verticalUpper_eq, verticalLower_eq]
    constructor
    · have : (5 / 8 : ℚ) < 5967269506265907 / 9007199254740992 := by norm_num
      linarith
    · have : (4165829655317709 / 9007199254740992 : ℚ) < 17 / 32 := by norm_num
      linarith
  unfold classifyAspect
  rw [if_neg (ne_of_gt hw), if_neg nH, if_pos yV]

/-! ## Splitting, joining and cleaning -/

theorem stringsSplit_ne_nil (sep : Char) (l : List Char) : stringsSplit sep l ≠ [] := by
  cases l with
  | nil => simp [stringsSplit]
  | cons c cs =>
    unfold stringsSplit
    split_ifs
    · simp
    · split <;> simp

theorem stringsSplit_length (sep : Char) (l : List Char) :
    (stringsSplit sep l).length = l.count sep + 1 := by
  induction l with
  | nil => simp [stringsSplit]
  | cons c cs ih =>
    unfold stringsSplit
    by_cases hc : c = sep
    · subst hc
      simp [ih]
    · rw [if_neg hc, List.count_cons_of_ne (fun h => hc h.symm)]
      cases hs : stringsSplit sep cs with
      | nil => exact absurd hs (stringsSplit_ne_nil sep cs)
      | cons p ps =>
        rw [hs] at ih
        simpa using ih

theorem stringsSplit_of_not_mem {sep : Char} {l : List Char} (h : sep ∉ l) :
    stringsSplit sep l = [l] := by
  induction l with
  | nil => simp [stringsSplit]
  | cons c cs ih =>
    have hc : c ≠ sep := fun e => h (by simp [e])
    have hcs : sep ∉ cs := fun e => h (by simp [e])
    unfold stringsSplit
    rw [if_neg hc, ih hcs]

theorem stringsSplit_append {sep : Char} {a : List Char} (b : List Char) (h : sep ∉ a) :
    stringsSplit sep (a ++ sep :: b) = a :: stringsSplit sep b := by
  induction a with
  | nil => simp [stringsSplit]
  | cons c cs ih =>
    have hc : c ≠ sep := fun e => h (by simp [e])
    have hcs : sep ∉ cs := fun e => h (by simp [e])
    rw [List.cons_append]
    conv_lhs => unfold stringsSplit
    rw [if_neg hc, ih hcs]

theorem getContentTypeExt_of_parts {s : String} {p0 p1 : List Char}
    (h : stringsSplit '/' s.data = [p0, p1]) : getContentTypeExt s = "." ++ String.mk p1 := by
  unfold getContentTypeExt
  simp only [h]

theorem getContentTypeExt_of_length {s : String}
    (h : (stringsSplit '/' s.data).length ≠ 2) : getContentTypeExt s = ".bin" := by
  unfold getContentTypeExt
  generalize stringsSplit '/' s.data = parts at h
  rcases parts with _ | ⟨a, _ | ⟨b, _ | ⟨c, t⟩⟩⟩ <;> simp at h ⊢

theorem getContentTypeExt_slash (a b : String) (ha : '/' ∉ a.data) (hb : '/' ∉ b.data) :
    getContentTypeExt (a ++ "/" ++ b) = "." ++ b := by
  apply @getContentTypeExt_of_parts _ a.data
  have : (a ++ "/" ++ b).data = a.data ++ '/' :: b.data := by
    simp [String.data_append]
  rw [this, stringsSplit_append _ ha, stringsSplit_of_not_mem hb]

theorem digitChar_ne_slash (n : Nat) : Nat.digitChar n ≠ '/' := by
  by_cases h : n < 16
  · interval_cases n <;> decide
  · have : Nat.digitChar n = '*' := by
      unfold Nat.digitChar
      repeat rw [if_neg (by omega)]
    rw [this]
    decide

theorem hexDigits_no_slash (fuel n : Nat) (acc : List Char) (h : '/' ∉ acc) :
    '/' ∉ hexDigits fuel n acc := by
  induction fuel generalizing n acc with
  | zero => simpa [hexDigits] using h
  | succ k ih =>
    unfold hexDigits
    split_ifs
    · intro hm
      rcases List.mem_cons.mp hm with e | e
      · exact digitChar_ne_slash n e.symm
      · exact h e
    · apply ih
      intro hm
      rcases List.mem_cons.mp hm with e | e
      · exact digitChar_ne_slash _ e.symm
      · exact h e

theorem pointerText_data (addr : Nat) :
    ∃ t : List Char, '/' ∉ t ∧ (pointerText addr).data = '%' :: t := by
  unfold pointerText
  by_cases h0 : addr = 0
  · rw [if_pos h0]
    exact ⟨_, by decide, rfl⟩
  · rw [if_neg h0]
    refine ⟨"!s(*string=0x".data ++ hexDigits 16 (addr % 2 ^ 64) [] ++ [')'], ?_, ?_⟩
    · have := hexDigits_no_slash 16 (addr % 2 ^ 64) [] (by simp)
      simp only [List.mem_append, not_or]
      exact ⟨⟨by decide, this⟩, by decide⟩
    · simp [fmt0x64, String.data_append]

/-- The name the source generates: the pointer text, then the extension. -/
theorem getAssetFullName_ok (contentType : String) (base : List Nat) (addr : Nat) :
    getAssetFullName contentType (.ok base) addr =
      .ok (pointerText addr ++ getContentTypeExt contentType) := rfl

theorem cleanElems_two {a b : List Char} (ha : a ≠ [] ∧ a ≠ ['.'] ∧ a ≠ ['.', '.'])
    (hb : b ≠ [] ∧ b ≠ ['.'] ∧ b ≠ ['.', '.']) (rooted : Bool) :
    cleanElems rooted [] [a, b] = [a, b] := by
  simp [cleanElems, ha.1, ha.2.1, ha.2.2, hb.1, hb.2.1, hb.2.2]

theorem filepathJoin_two (a b : String) (ha : '/' ∉ a.data) (hb : '/' ∉ b.data)
    (ha' : a.data ≠ [] ∧ a.data ≠ ['.'] ∧ a.data ≠ ['.', '.'])
    (hb' : b.data ≠ [] ∧ b.data ≠ ['.'] ∧ b.data ≠ ['.', '.']) :
    filepathJoin [a, b] = a ++ "/" ++ b := by
  have hane : a ≠ "" := by
    intro e; rw [e] at ha'; exact ha'.1 rfl
  have hjoin : String.intercalate "/" [a, b] = a ++ "/" ++ b := by
    simp [String.intercalate, String.intercalate.go]
  have hdata : (a ++ "/" ++ b).data = a.data ++ '/' :: b.data := by
    simp [String.data_append]
  have hne : a ++ "/" ++ b ≠ "" := by
    intro e
    have := congrArg String.data e
    rw [hdata] at this
    simp at this
  have hroot : ¬((a ++ "/" ++ b).data.head? = some '/') := by
    rw [hdata]
    cases hd : a.data with
    | nil => exact absurd hd ha'.1
    | cons c cs =>
      rw [hd] at ha
      simp only [List.cons_append, List.head?_cons, Option.some.injEq]
      intro e
      exact ha (by simp [e])
  unfold filepathJoin
  simp only [List.dropWhile, hane, decide_False]
  rw [hjoin]
  unfold filepathClean
  rw [if_neg hne]
  simp only [hroot, decide_False]
  rw [hdata, stringsSplit_append _ ha, stringsSplit_of_not_mem hb, cleanElems_two ha' hb']
  simp only [List.map]
  have e1 : String.mk a.data = a := rfl
  have e2 : String.mk b.data = b := rfl
  rw [e1, e2, hjoin]
  simp [hne]

/-! ## The video handler, run backwards from its effects -/

/-- If `handlerUploadVideo` calls `UpdateVideo`, every earlier step has
succeeded, and the whole run is determined. -/
theorem handlerUploadVideo_update_inv (cfg : apiConfig) (r : Request) (d : Deps)
    (v : Video) (ok : Bool)
    (hmem : Effect.updateVideo v ok ∈ (handlerUploadVideo cfg r d).effects) :
    ∃ (videoID : UUID) (token : String) (videoMeta : Video) (header : PartHeader)
      (tempFile aspectRatio name : String),
      d.uuidParse r.pathVideoID = .ok videoID ∧
      r.bearerToken = .ok token ∧
      d.validateJWT token cfg.jwtSecret = .ok videoMeta.UserID ∧
      d.getVideo videoID = .ok videoMeta ∧
      r.formFile "video" = .ok header ∧
      d.parseMediaType header.contentType = .ok "video/mp4" ∧
      d.createTemp = .ok tempFile ∧
      d.copyToTemp = .ok () ∧
      d.seekStart = .ok () ∧
      getVideoAspectRatio d.ffprobe d.unmarshal tempFile = .ok aspectRatio ∧
      getAssetFullName "video/mp4" d.randRead d.nameAddr = .ok name ∧
      d.putObject cfg.s3Bucket (filepathJoin [directoryOf aspectRatio, name]) "video/mp4"
        = .ok () ∧
      v = { videoMeta with
            VideoURL := some (videoURLOf cfg (filepathJoin [directoryOf aspectRatio, name])) } ∧
      ok = succeeded (d.updateVideo v) ∧
      (handlerUploadVideo cfg r d).effects =
        [.parseForm defaultMaxMemory (r.formSpool defaultMaxMemory),
         .createTemp (.ok tempFile), .copyToTemp tempFile true, .seekTemp tempFile true,
         .probe tempFile,
         .putObject cfg.s3Bucket (filepathJoin [directoryOf aspectRatio, name]) "video/mp4" true,
         .updateVideo v ok, .closeTemp tempFile, .removeTemp tempFile, .closeUpload] ∧
      (handlerUploadVideo cfg r d).response =
        (match d.updateVideo v with
         | .ok _ => .json StatusOK v
         | .error err => .error StatusInternalServerError "Couldn't update video" (some err)) := by
  unfold handlerUploadVideo at hmem
  cases h1 : d.uuidParse r.pathVideoID with
  | error e => simp [h1, respond, Outcome.after, Outcome.deferred] at hmem
  | ok videoID =>
  cases h2 : r.bearerToken with
  | error e => simp [h1, h2, respond, Outcome.after, Outcome.deferred] at hmem
  | ok token =>
  cases h3 : d.validateJWT token cfg.jwtSecret with
  | error e => simp [h1, h2, h3, respond, Outcome.after, Outcome.deferred] at hmem
  | ok userID =>
  cases h4 : d.getVideo videoID with
  | error e => simp [h1, h2, h3, h4, respond, Outcome.after, Outcome.deferred] at hmem
  | ok videoMeta =>
  by_cases h5 : videoMeta.UserID = userID
  swap
  · simp [h1, h2, h3, h4, h5, respond, Outcome.after, Outcome.deferred] at hmem
  cases h6 : r.formFile "video" with
  | error e => simp [h1, h2, h3, h4, h5, h6, respond, Outcome.after, Outcome.deferred] at hmem
  | ok header =>
  cases h7 : d.parseMediaType header.contentType with
  | error e => simp [h1, h2, h3, h4, h5, h6, h7, respond, Outcome.deferred, Outcome.after] at hmem
  | ok contentType =>
  by_cases h8 : contentType = "video/mp4"
  swap
  · simp [h1, h2, h3, h4, h5, h6, h7, h8, respond, Outcome.deferred, Outcome.after] at hmem
  subst h8
  cases h9 : d.createTemp with
  | error e =>
    simp [h1, h2, h3, h4, h5, h6, h7, h9, respond, Outcome.deferred, Outcome.after] at hmem
  | ok tempFile =>
  cases h10 : d.copyToTemp with
  | error e =>
    simp [h1, h2, h3, h4, h5, h6, h7, h9, h10, respond, Outcome.deferred, Outcome.after] at hmem
  | ok u10 =>
  cases h11 : d.seekStart with
  | error e =>
    simp [h1, h2, h3, h4, h5, h6, h7, h9, h10, h11, respond, Outcome.deferred,
      Outcome.after]
      at hmem
  | ok u11 =>
  cases h12 : getVideoAspectRatio d.ffprobe d.unmarshal tempFile with
  | error e =>
    simp [h1, h2, h3, h4, h5, h6, h7, h9, h10, h11, h12, respond, Outcome.deferred,
      Outcome.after] at hmem
  | ok aspectRatio =>
  cases h13 : getAssetFullName "video/mp4" d.randRead d.nameAddr with
  | error e =>
    simp [h1, h2, h3, h4, h5, h6, h7, h9, h10, h11, h12, h13, respond, Outcome.deferred,
      Outcome.after] at hmem
  | ok name =>
  cases h14 : d.putObject cfg.s3Bucket (filepathJoin [directoryOf aspectRatio, name])
      "video/mp4" with
  | error e =>
    simp [h1, h2, h3, h4, h5, h6, h7, h9, h10, h11, h12, h13, h14, respond,
      Outcome.deferred, Outcome.after] at hmem
  | ok u14 =>
  subst h5
  have hv : v = { videoMeta with
        VideoURL := some (videoURLOf cfg (filepathJoin [directoryOf aspectRatio, name])) } ∧
      ok = succeeded (d.updateVideo v) := by
    cases h15 : d.updateVideo { videoMeta with
        VideoURL := some (videoURLOf cfg (filepathJoin [directoryOf aspectRatio, name])) } with
    | error e =>
      simp only [videoURLOf] at h15
      simp [h1, h2, h3, h4, h6, h7, h9, h10, h11, h12, h13, h14, h15, respond,
      Outcome.deferred, Outcome.after, succeeded] at hmem
      obtain ⟨hv, hok⟩ := hmem
      subst hv hok
      simp [videoURLOf, h15, succeeded]
    | ok u15 =>
      simp only [videoURLOf] at h15
      simp [h1, h2, h3, h4, h6, h7, h9, h10, h11, h12, h13, h14, h15, respond,
      Outcome.deferred, Outcome.after, succeeded] at hmem
      obtain ⟨hv, hok⟩ := hmem
      subst hv hok
      simp [videoURLOf, h15, succeeded]
  obtain ⟨hv, hok⟩ := hv
  refine ⟨videoID, token, videoMeta, header, tempFile, aspectRatio, name, ?_, ?_, h3, h4, ?_,
    h7, ?_, ?_, ?_, h12, ?_, h14, hv, hok, ?_, ?_⟩
  any_goals rfl
  · subst hv hok
    cases h15 : d.updateVideo { videoMeta with
        VideoURL := some (videoURLOf cfg (filepathJoin [directoryOf aspectRatio, name])) } with
    | error e =>
      simp only [videoURLOf] at h15
      simp [handlerUploadVideo, h1, h2, h3, h4, h6, h7, h9, h10, h11, h12, h13, h14, h15,
      respond, Outcome.deferred, Outcome.after, succeeded, videoURLOf]
    | ok u15 =>
      simp only [videoURLOf] at h15
      simp [handlerUploadVideo, h1, h2, h3, h4, h6, h7, h9, h10, h11, h12, h13, h14, h15,
      respond, Outcome.deferred, Outcome.after, succeeded, videoURLOf]
  · subst hv hok
    cases h15 : d.updateVideo { videoMeta with
        VideoURL := some (videoURLOf cfg (filepathJoin [directoryOf aspectRatio, name])) } with
    | error e =>
      simp only [videoURLOf] at h15
      simp [handlerUploadVideo, h1, h2, h3, h4, h6, h7, h9, h10, h11, h12, h13, h14, h15,
      respond, Outcome.deferred, Outcome.after, succeeded, videoURLOf]
    | ok u15 =>
      simp only [videoURLOf] at h15
      simp [handlerUploadVideo, h1, h2, h3, h4, h6, h7, h9, h10, h11, h12, h13, h14, h15,
      respond, Outcome.deferred, Outcome.after, succeeded, videoURLOf]

/-- If `handlerUploadVideo` performs an effect other than the parse of the form and
the close of the part, or does not answer with an error, the request has passed every check of the validation phase. -/
theorem handlerUploadVideo_validated (cfg : apiConfig) (r : Request) (d : Deps)
    (hs : (∃ e ∈ (handlerUploadVideo cfg r d).effects,
        ¬(e = .parseForm defaultMaxMemory (r.formSpool defaultMaxMemory) ∨ e = .closeUpload)) ∨
      (handlerUploadVideo cfg r d).response.isError = false) :
    ∃ (videoID : UUID) (token : String) (videoMeta : Video) (header : PartHeader),
      d.uuidParse r.pathVideoID = .ok videoID ∧
      r.bearerToken = .ok token ∧
      d.validateJWT token cfg.jwtSecret = .ok videoMeta.UserID ∧
      d.getVideo videoID = .ok videoMeta ∧
      r.formFile "video" = .ok header ∧
      d.parseMediaType header.contentType = .ok "video/mp4" := by
  unfold handlerUploadVideo at hs
  cases h1 : d.uuidParse r.pathVideoID with
  | error e => simp [h1, respond, Response.isError, Outcome.after, Outcome.deferred] at hs
  | ok videoID =>
  cases h2 : r.bearerToken with
  | error e => simp [h1, h2, respond, Response.isError, Outcome.after, Outcome.deferred] at hs
  | ok token =>
  cases h3 : d.validateJWT token cfg.jwtSecret with
  | error e => simp [h1, h2, h3, respond, Response.isError, Outcome.after, Outcome.deferred] at hs
  | ok userID =>
  cases h4 : d.getVideo videoID with
  | error e => simp [h1, h2, h3, h4, respond, Response.isError, Outcome.after, Outcome.deferred] at hs
  | ok videoMeta =>
  by_cases h5 : videoMeta.UserID = userID
  swap
  · simp [h1, h2, h3, h4, h5, respond, Response.isError, Outcome.after, Outcome.deferred] at hs
  cases h6 : r.formFile "video" with
  | error e => simp [h1, h2, h3, h4, h5, h6, respond, Response.isError, Outcome.after,
      Outcome.deferred] at hs
  | ok header =>
  cases h7 : d.parseMediaType header.contentType with
  | error e =>
    simp [h1, h2, h3, h4, h5, h6, h7, respond, Outcome.deferred, Response.isError,
      Outcome.after] at hs
  | ok contentType =>
  by_cases h8 : contentType = "video/mp4"
  swap
  · simp [h1, h2, h3, h4, h5, h6, h7, h8, respond, Outcome.deferred, Response.isError,
      Outcome.after] at hs
  subst h8 h5
  exact ⟨videoID, token, videoMeta, header, rfl,
    rfl, h3, h4, rfl, h7⟩

/-- Once `os.CreateTemp` has succeeded, every run of `handlerUploadVideo` ends by
closing the staging file, removing it, and closing the upload, and touches
neither of the first two before. -/
theorem handlerUploadVideo_staged (cfg : apiConfig) (r : Request) (d : Deps) (tmp : String)
    (hmem : Effect.createTemp (.ok tmp) ∈ (handlerUploadVideo cfg r d).effects) :
    ∃ mid : List Effect,
      (handlerUploadVideo cfg r d).effects =
        Effect.parseForm defaultMaxMemory (r.formSpool defaultMaxMemory) ::
          Effect.createTemp (.ok tmp) :: mid ++
            [.closeTemp tmp, .removeTemp tmp, .closeUpload] ∧
      ∀ e ∈ mid, e ≠ .closeTemp tmp ∧ e ≠ .removeTemp tmp := by
  unfold handlerUploadVideo at hmem ⊢
  cases h1 : d.uuidParse r.pathVideoID with
  | error e => simp [h1, respond, Outcome.after, Outcome.deferred] at hmem
  | ok videoID =>
  cases h2 : r.bearerToken with
  | error e => simp [h1, h2, respond, Outcome.after, Outcome.deferred] at hmem
  | ok token =>
  cases h3 : d.validateJWT token cfg.jwtSecret with
  | error e => simp [h1, h2, h3, respond, Outcome.after, Outcome.deferred] at hmem
  | ok userID =>
  cases h4 : d.getVideo videoID with
  | error e => simp [h1, h2, h3, h4, respond, Outcome.after, Outcome.deferred] at hmem
  | ok videoMeta =>
  by_cases h5 : videoMeta.UserID = userID
  swap
  · simp [h1, h2, h3, h4, h5, respond, Outcome.after, Outcome.deferred] at hmem
  cases h6 : r.formFile "video" with
  | error e => simp [h1, h2, h3, h4, h5, h6, respond, Outcome.after, Outcome.deferred] at hmem
  | ok header =>
  cases h7 : d.parseMediaType header.contentType with
  | error e => simp [h1, h2, h3, h4, h5, h6, h7, respond, Outcome.deferred, Outcome.after] at hmem
  | ok contentType =>
  by_cases h8 : contentType = "video/mp4"
  swap
  · simp [h1, h2, h3, h4, h5, h6, h7, h8, respond, Outcome.deferred, Outcome.after] at hmem
  subst h8
  cases h9 : d.createTemp with
  | error e =>
    simp [h1, h2, h3, h4, h5, h6, h7, h9, respond, Outcome.deferred, Outcome.after] at hmem
  | ok tempFile =>
  cases h10 : d.copyToTemp with
  | error e =>
    simp [h1, h2, h3, h4, h5, h6, h7, h9, h10, respond, Outcome.deferred, Outcome.after,
      succeeded] at hmem ⊢
    subst hmem
    exact ⟨[.copyToTemp tmp false], by simp, by simp⟩
  | ok u10 =>
  cases h11 : d.seekStart with
  | error e =>
    simp [h1, h2, h3, h4, h5, h6, h7, h9, h10, h11, respond, Outcome.deferred,
      Outcome.after, succeeded] at hmem ⊢
    subst hmem
    exact ⟨[.copyToTemp tmp true, .seekTemp tmp false], by simp, by simp⟩
  | ok u11 =>
  cases h12 : getVideoAspectRatio d.ffprobe d.unmarshal tempFile with
  | error e =>
    simp [h1, h2, h3, h4, h5, h6, h7, h9, h10, h11, h12, respond, Outcome.deferred,
      Outcome.after, succeeded] at hmem ⊢
    subst hmem
    exact ⟨[.copyToTemp tmp true, .seekTemp tmp true, .probe tmp], by simp, by simp⟩
  | ok aspectRatio =>
  cases h13 : getAssetFullName "video/mp4" d.randRead d.nameAddr with
  | error e =>
    simp [h1, h2, h3, h4, h5, h6, h7, h9, h10, h11, h12, h13, respond, Outcome.deferred,
      Outcome.after, succeeded] at hmem ⊢
    subst hmem
    exact ⟨[.copyToTemp tmp true, .seekTemp tmp true, .probe tmp], by simp, by simp⟩
  | ok name =>
  cases h14 : d.putObject cfg.s3Bucket (filepathJoin [directoryOf aspectRatio, name])
      "video/mp4" with
  | error e =>
    simp [h1, h2, h3, h4, h5, h6, h7, h9, h10, h11, h12, h13, h14, respond,
      Outcome.deferred, Outcome.after, succeeded] at hmem ⊢
    subst hmem
    exact ⟨[.copyToTemp tmp true, .seekTemp tmp true, .probe tmp,
      .putObject cfg.s3Bucket (filepathJoin [directoryOf aspectRatio, name]) "video/mp4" false],
      by simp, by simp⟩
  | ok u14 =>
  subst h5
  cases h15 : d.updateVideo { videoMeta with
      VideoURL := some (videoURLOf cfg (filepathJoin [directoryOf aspectRatio, name])) } with
  | error e =>
    simp only [videoURLOf] at h15
    simp [h1, h2, h3, h4, h6, h7, h9, h10, h11, h12, h13, h14, h15, respond,
      Outcome.deferred, Outcome.after, succeeded] at hmem ⊢
    subst hmem
    exact ⟨[.copyToTemp tmp true, .seekTemp tmp true, .probe tmp,
      .putObject cfg.s3Bucket (filepathJoin [directoryOf aspectRatio, name]) "video/mp4" true,
      .updateVideo { videoMeta with
        VideoURL := some (videoURLOf cfg (filepathJoin [directoryOf aspectRatio, name])) } false],
      by simp [videoURLOf], by simp⟩
  | ok u15 =>
    simp only [videoURLOf] at h15
    simp [h1, h2, h3, h4, h6, h7, h9, h10, h11, h12, h13, h14, h15, respond,
      Outcome.deferred, Outcome.after, succeeded] at hmem ⊢
    subst hmem
    exact ⟨[.copyToTemp tmp true, .seekTemp tmp true, .probe tmp,
      .putObject cfg.s3Bucket (filepathJoin [directoryOf aspectRatio, name]) "video/mp4" true,
      .updateVideo { videoMeta with
        VideoURL := some (videoURLOf cfg (filepathJoin [directoryOf aspectRatio, name])) } true],
      by simp [videoURLOf], by simp⟩

theorem filesAfter_append (files : List String) (xs ys : List Effect) :
    filesAfter files (xs ++ ys) = filesAfter (filesAfter files xs) ys := by
  unfold filesAfter
  rw [List.foldl_append]

/-- After a run that ends with the removal of a file, the file is absent. -/
theorem not_mem_filesAfter_removed (files : List String) (xs : List Effect) (tmp : String) :
    tmp ∉ filesAfter files (xs ++ [.closeTemp tmp, .removeTemp tmp, .closeUpload]) := by
  rw [filesAfter_append]
  simp [filesAfter, stepFiles]

/-- If `handlerUploadThumbnail` calls `UpdateVideo`, every earlier step has
succeeded, and the whole run is determined. -/
theorem handlerUploadThumbnail_update_inv (cfg : apiConfig) (r : Request) (d : Deps)
    (v : Video) (ok : Bool)
    (hmem : Effect.updateVideo v ok ∈ (handlerUploadThumbnail cfg r d).effects) :
    ∃ (videoID : UUID) (token : String) (videoMeta : Video) (header : PartHeader)
      (contentType name : String),
      d.uuidParse r.pathVideoID = .ok videoID ∧
      r.bearerToken = .ok token ∧
      d.validateJWT token cfg.jwtSecret = .ok videoMeta.UserID ∧
      r.parseMultipartForm = .ok () ∧
      r.formFile "thumbnail" = .ok header ∧
      d.parseMediaType header.contentType = .ok contentType ∧
      (contentType = "image/jpeg" ∨ contentType = "image/png") ∧
      d.getVideo videoID = .ok videoMeta ∧
      getAssetFullName contentType d.randRead d.nameAddr = .ok name ∧
      d.osCreate (getAssetDiskPath cfg.assetsRoot name) = .ok () ∧
      d.copyToAsset = .ok () ∧
      v = { videoMeta with ThumbnailURL := some (getAssetURL name) } ∧
      ok = succeeded (d.updateVideo v) ∧
      (handlerUploadThumbnail cfg r d).effects =
        [.logUpload videoID videoMeta.UserID,
         .parseForm (10 <<< 20) (r.formSpool (10 <<< 20)),
         .createAsset (getAssetDiskPath cfg.assetsRoot name) true,
         .copyToAsset (getAssetDiskPath cfg.assetsRoot name) true,
         .updateVideo v ok,
         .closeAsset (getAssetDiskPath cfg.assetsRoot name), .closeUpload] ∧
      (handlerUploadThumbnail cfg r d).response =
        (match d.updateVideo v with
         | .ok _ => .json StatusOK v
         | .error err => .error StatusInternalServerError "Cannot save media data" (some err)) := by
  unfold handlerUploadThumbnail at hmem
  cases h1 : d.uuidParse r.pathVideoID with
  | error e => simp [h1, respond, Outcome.after, Outcome.deferred] at hmem
  | ok videoID =>
  cases h2 : r.bearerToken with
  | error e => simp [h1, h2, respond, Outcome.after, Outcome.deferred] at hmem
  | ok token =>
  cases h3 : d.validateJWT token cfg.jwtSecret with
  | error e => simp [h1, h2, h3, respond, Outcome.after, Outcome.deferred] at hmem
  | ok userID =>
  cases h4 : r.parseMultipartForm with
  | error e => simp [h1, h2, h3, h4, respond, Outcome.deferred, Outcome.after, succeeded] at hmem
  | ok u4 =>
  cases h5 : r.formFile "thumbnail" with
  | error e => simp [h1, h2, h3, h4, h5, respond, Outcome.deferred, Outcome.after, succeeded] at hmem
  | ok header =>
  cases h6 : d.parseMediaType header.contentType with
  | error e => simp [h1, h2, h3, h4, h5, h6, respond, Outcome.deferred, Outcome.after, succeeded] at hmem
  | ok contentType =>
  by_cases h7 : contentType ≠ "image/jpeg" ∧ contentType ≠ "image/png"
  · simp [h1, h2, h3, h4, h5, h6, h7, respond, Outcome.deferred, Outcome.after, succeeded] at hmem
  cases h8 : d.getVideo videoID with
  | error e => simp [h1, h2, h3, h4, h5, h6, h7, h8, respond, Outcome.deferred, Outcome.after,
      succeeded] at hmem
  | ok videoMeta =>
  by_cases h9 : videoMeta.UserID = userID
  swap
  · simp [h1, h2, h3, h4, h5, h6, h7, h8, h9, respond, Outcome.deferred, Outcome.after,
      succeeded] at hmem
  subst h9
  have h7' : contentType = "image/jpeg" ∨ contentType = "image/png" := by
    by_contra hn
    push_neg at hn
    exact h7 hn
  cases h10 : getAssetFullName contentType d.randRead d.nameAddr with
  | error e => simp [h1, h2, h3, h4, h5, h6, h7, h8, h10, respond, Outcome.deferred, Outcome.after,
      succeeded] at hmem
  | ok name =>
  cases h11 : d.osCreate (getAssetDiskPath cfg.assetsRoot name) with
  | error e => simp [h1, h2, h3, h4, h5, h6, h7, h8, h10, h11, respond, Outcome.deferred,
      Outcome.after, succeeded] at hmem
  | ok u11 =>
  cases h12 : d.copyToAsset with
  | error e => simp [h1, h2, h3, h4, h5, h6, h7, h8, h10, h11, h12, respond, Outcome.deferred,
      Outcome.after, succeeded] at hmem
  | ok u12 =>
  have hv : v = { videoMeta with ThumbnailURL := some (getAssetURL name) } ∧
      ok = succeeded (d.updateVideo v) := by
    cases h13 : d.updateVideo { videoMeta with ThumbnailURL := some (getAssetURL name) } with
    | error e =>
      simp [h1, h2, h3, h4, h5, h6, h7, h8, h10, h11, h12, h13, respond, Outcome.deferred,
      Outcome.after, succeeded] at hmem
      obtain ⟨hv, hok⟩ := hmem
      subst hv hok
      simp [h13, succeeded]
    | ok u13 =>
      simp [h1, h2, h3, h4, h5, h6, h7, h8, h10, h11, h12, h13, respond, Outcome.deferred,
      Outcome.after, succeeded] at hmem
      obtain ⟨hv, hok⟩ := hmem
      subst hv hok
      simp [h13, succeeded]
  obtain ⟨hv, hok⟩ := hv
  refine ⟨videoID, token, videoMeta, header, contentType, name, ?_, ?_, h3, ?_, ?_, h6, h7', h8,
    h10, h11, ?_, hv, hok, ?_, ?_⟩
  any_goals rfl
  · subst hv hok
    cases h13 : d.updateVideo { videoMeta with ThumbnailURL := some (getAssetURL name) } with
    | error e =>
      simp [handlerUploadThumbnail, h1, h2, h3, h4, h5, h6, h7, h8, h10, h11, h12, h13,
      respond, Outcome.deferred, Outcome.after, succeeded]
    | ok u13 =>
      simp [handlerUploadThumbnail, h1, h2, h3, h4, h5, h6, h7, h8, h10, h11, h12, h13,
      respond, Outcome.deferred, Outcome.after, succeeded]
  · subst hv hok
    cases h13 : d.updateVideo { videoMeta with ThumbnailURL := some (getAssetURL name) } with
    | error e =>
      simp [handlerUploadThumbnail, h1, h2, h3, h4, h5, h6, h7, h8, h10, h11, h12, h13,
      respond, Outcome.deferred, Outcome.after, succeeded]
    | ok u13 =>
      simp [handlerUploadThumbnail, h1, h2, h3, h4, h5, h6, h7, h8, h10, h11, h12, h13,
      respond, Outcome.deferred, Outcome.after, succeeded]

/-! ## The claims about naming -/

/-- C1, as the source has it: `getContentTypeExt` returns `.bin` whenever the
content type does not hold exactly one `/` (splitting gives one part more than
there are separators, so not exactly two parts), and otherwise returns `.`
followed by the part after the `/`, whether or not either part is empty. -/
theorem getContentTypeExt_two_parts (s : String) :
    (stringsSplit '/' s.data).length = s.data.count '/' + 1 ∧
    (s.data.count '/' ≠ 1 → getContentTypeExt s = ".bin") ∧
    (∀ a b : String, '/' ∉ a.data → '/' ∉ b.data → s = a ++ "/" ++ b →
      getContentTypeExt s = "." ++ b) := by
  refine ⟨stringsSplit_length _ _, ?_, ?_⟩
  · intro h
    apply getContentTypeExt_of_length
    rw [stringsSplit_length]
    omega
  · intro a b ha hb hs
    rw [hs]
    exact getContentTypeExt_slash a b ha hb

/-- The examples of C1 that the source satisfies, and the two it does not
satisfy as the claim states them: an empty part is kept. -/
theorem getContentTypeExt_two_parts_witness :
    getContentTypeExt "image/png" = ".png" ∧
    getContentTypeExt "image" = ".bin" ∧
    getContentTypeExt "a/b/c" = ".bin" ∧
    getContentTypeExt "image/" = "." ∧
    getContentTypeExt "/png" = ".png" :=
  ⟨(getContentTypeExt_two_parts "image/png").2.2 "image" "png" (by decide) (by decide) rfl,
   (getContentTypeExt_two_parts "image").2.1 (by decide),
   (getContentTypeExt_two_parts "a/b/c").2.1 (by decide),
   (getContentTypeExt_two_parts "image/").2.2 "image" "" (by decide) (by decide) rfl,
   (getContentTypeExt_two_parts "/png").2.2 "" "png" (by decide) (by decide) rfl⟩

/-- C1 as stated fails: splitting `image/` gives the parts `image` and the empty
string, which are not two non-empty parts, yet the result is `.` and not `.bin`;
likewise `/png` gives `.png`. -/
theorem getContentTypeExt_keeps_empty_part :
    stringsSplit '/' "image/".data = ["image".data, []] ∧
    getContentTypeExt "image/" = "." ∧ getContentTypeExt "image/" ≠ ".bin" ∧
    stringsSplit '/' "/png".data = [[], "png".data] ∧
    getContentTypeExt "/png" = ".png" ∧ getContentTypeExt "/png" ≠ ".bin" := by
  decide

/-- C2 fails on the source: the generated name is the bad-verb text carrying the
address of the identifier, not the identifier. At the content type `image/png`
and the address `0xc000014070`, the draw of thirty-two zero bytes and the draw
of thirty-two `0xff` bytes both give `%!s(*string=0xc000014070).png`, while the
encodings of the two draws differ; and in general the name does not depend on
the draw. -/
theorem getAssetFullName_prints_address :
    getAssetFullName "image/png" (.ok (List.replicate 32 0)) 0xc000014070 =
      .ok "%!s(*string=0xc000014070).png" ∧
    getAssetFullName "image/png" (.ok (List.replicate 32 255)) 0xc000014070 =
      .ok "%!s(*string=0xc000014070).png" ∧
    EncodeToString (List.replicate 32 0) ++ getContentTypeExt "image/png" =
      "AAAAAAAAAAAAAAAAAAAAAAAAAAAAAAAAAAAAAAAAAAA.png" ∧
    EncodeToString (List.replicate 32 255) ++ getContentTypeExt "image/png" =
      "__________________________________________8.png" ∧
    (∀ (contentType : String) (base base' : List Nat) (addr : Nat),
      getAssetFullName contentType (.ok base) addr =
        getAssetFullName contentType (.ok base') addr) := by
  refine ⟨by decide, by decide, by decide, by decide, ?_⟩
  intro contentType base base' addr
  rfl

/-! ## The claims about classification -/

theorem ite_three {P Q : Prop} [Decidable P] [Decidable Q] (hd : ¬(P ∧ Q)) :
    ((if P then "16:9" else if Q then "9:16" else "other") = "16:9" ↔ P) ∧
    ((if P then "16:9" else if Q then "9:16" else "other") = "9:16" ↔ Q) ∧
    ((if P then "16:9" else if Q then "9:16" else "other") = "other" ↔ ¬P ∧ ¬Q) := by
  by_cases hP : P <;> by_cases hQ : Q
  · exact absurd ⟨hP, hQ⟩ hd
  · simp [hP, hQ]
  · simp [hP, hQ]
  · simp [hP, hQ]

/-- C3, as the source has it: for a first stream of height `0 < h < 2 ^ 45` and
any width `w`, the classification is `16:9` exactly when
`16/9 - 1/10 ≤ w/h < 16/9 + 1/10` (the lower edge belongs to the band), `9:16`
exactly when `|w/h - 9/16| < 1/10`, and `other` in every remaining case; the two
tests of the source never hold together. -/
theorem classifyAspect_bands (w h : ℤ) (hh : 0 < h) (hb : h < 2 ^ 45) :
    (classifyAspect w h = "16:9" ↔
      ((16 / 9 - 1 / 10 : ℚ) ≤ (w : ℚ) / h ∧ (w : ℚ) / h < 16 / 9 + 1 / 10)) ∧
    (classifyAspect w h = "9:16" ↔ |(w : ℚ) / h - 9 / 16| < 1 / 10) ∧
    (classifyAspect w h = "other" ↔
      (¬((16 / 9 - 1 / 10 : ℚ) ≤ (w : ℚ) / h ∧ (w : ℚ) / h < 16 / 9 + 1 / 10) ∧
        ¬|(w : ℚ) / h - 9 / 16| < 1 / 10)) ∧
    ¬(inHorizontalBand (aspectRatioFloat w h) ∧ inVerticalBand (aspectRatioFloat w h)) := by
  have hd := bands_disjoint_rat ((w : ℚ) / h)
  rw [classifyAspect_rat hh hb]
  refine ⟨(ite_three hd).1, (ite_three hd).2.1, (ite_three hd).2.2, ?_⟩
  rw [inHorizontalBand_iff hh hb, inVerticalBand_iff hh hb, horizontal_rat_iff hh,
    vertical_rat_iff hh]
  exact hd

/-- The five sample streams of C3. -/
theorem classifyAspect_bands_witness :
    classifyAspect 1920 1080 = "16:9" ∧
    classifyAspect 1080 1920 = "9:16" ∧
    classifyAspect 1000 1000 = "other" ∧
    classifyAspect 1878 1000 = "other" ∧
    classifyAspect 1877 1000 = "16:9" :=
  ⟨(classifyAspect_bands 1920 1080 (by norm_num) (by norm_num)).1.2 (by norm_num),
   (classifyAspect_bands 1080 1920 (by norm_num) (by norm_num)).2.1.2
     (by rw [abs_lt]; norm_num),
   (classifyAspect_bands 1000 1000 (by norm_num) (by norm_num)).2.2.1.2
     ⟨by norm_num, by rw [abs_lt]; norm_num⟩,
   (classifyAspect_bands 1878 1000 (by norm_num) (by norm_num)).2.2.1.2
     ⟨by norm_num, by rw [abs_lt]; norm_num⟩,
   (classifyAspect_bands 1877 1000 (by norm_num) (by norm_num)).1.2 (by norm_num)⟩

/-- C3 as stated fails at the lower edge of the horizontal band: a 151 x 90
stream has `|w/h - 16/9|` equal to `1/10`, not below it, and is classified
`16:9`. It fails also for very large dimensions: the stream of width
`169 * 2 ^ 50 - 1` and height `90 * 2 ^ 50` has `|w/h - 16/9| < 1/10` and is
classified `other`. -/
theorem classifyAspect_edge_included :
    (classifyAspect 151 90 = "16:9" ∧ ¬|((151 : ℤ) : ℚ) / ((90 : ℤ) : ℚ) - 16 / 9| < 1 / 10) ∧
    (classifyAspect 190277084256403455 101330991615836160 = "other" ∧
      |((190277084256403455 : ℤ) : ℚ) / ((101330991615836160 : ℤ) : ℚ) - 16 / 9| < 1 / 10) := by
  refine ⟨⟨?_, ?_⟩, ?_, ?_⟩
  · rw [classifyAspect_int (by norm_num) (by norm_num)]
    decide
  · rw [abs_lt]; norm_num
  · have hw : float64 190277084256403455 = 190277084256403456 := by
      unfold float64
      rw [RN_eval (x := ((190277084256403455 : ℤ) : ℚ)) 57 5946158883012608 (by norm_num)
        (by norm_num) (by norm_num) (by norm_num)]
      norm_num
    have hh : float64 101330991615836160 = 101330991615836160 := by
      unfold float64
      rw [RN_eval (x := ((101330991615836160 : ℤ) : ℚ)) 56 6333186975989760 (by norm_num)
        (by norm_num) (by norm_num) (by norm_num)]
      norm_num
    have hr : aspectRatioFloat 190277084256403455 101330991615836160 =
        4228379650142299 / 2251799813685248 := by
      unfold aspectRatioFloat
      rw [hw, hh]
      have : (190277084256403456 : ℚ) / 101330991615836160 = 169 / 90 := by norm_num
      rw [this, RN_169_90]
    unfold classifyAspect
    rw [if_neg (by norm_num)]
    have nH : ¬inHorizontalBand (aspectRatioFloat 190277084256403455 101330991615836160) := by
      unfold inHorizontalBand
      rw [hr, horizontalUpper_eq]
      rintro ⟨h1, -⟩
      exact lt_irrefl _ h1
    have nV : ¬inVerticalBand (aspectRatioFloat 190277084256403455 101330991615836160) := by
      unfold inVerticalBand
      rw [hr, verticalUpper_eq]
      rintro ⟨h1, -⟩
      norm_num at h1
    rw [if_neg nH, if_neg nV]
  · rw [abs_lt]; norm_num

/-- C8: `getVideoAspectRatio` returns an error when the probe fails, when its
output does not parse, and when it reports no stream; otherwise it returns,
without error, the classification of the first stream, which is one of
`16:9`, `9:16`, `other`, whatever streams follow. -/
theorem getVideoAspectRatio_result (ffprobe : String → Except String String)
    (unmarshal : String → Except String (List Stream)) (filePath : String) :
    (∀ err, ffprobe filePath = .error err →
      getVideoAspectRatio ffprobe unmarshal filePath = .error ("ffprobe error: " ++ err)) ∧
    (∀ buffer err, ffprobe filePath = .ok buffer → unmarshal buffer = .error err →
      getVideoAspectRatio ffprobe unmarshal filePath =
        .error ("couldn't parse ffprobe output: " ++ err)) ∧
    (∀ buffer, ffprobe filePath = .ok buffer → unmarshal buffer = .ok [] →
      getVideoAspectRatio ffprobe unmarshal filePath = .error "no video streams found") ∧
    (∀ buffer s0 rest, ffprobe filePath = .ok buffer → unmarshal buffer = .ok (s0 :: rest) →
      getVideoAspectRatio ffprobe unmarshal filePath = .ok (classifyAspect s0.Width s0.Height) ∧
      (classifyAspect s0.Width s0.Height = "16:9" ∨ classifyAspect s0.Width s0.Height = "9:16" ∨
        classifyAspect s0.Width s0.Height = "other")) := by
  refine ⟨?_, ?_, ?_, ?_⟩
  · intro err h
    simp [getVideoAspectRatio, h]
  · intro buffer err h1 h2
    simp [getVideoAspectRatio, h1, h2]
  · intro buffer h1 h2
    simp [getVideoAspectRatio, h1, h2]
  · intro buffer s0 rest h1 h2
    exact ⟨by simp [getVideoAspectRatio, h1, h2], classifyAspect_closed _ _⟩

/-- The four outcomes of C8 on sample probes: a failed run, an unparseable
output, no stream, and two streams of which only the first counts. -/
theorem getVideoAspectRatio_result_witness :
    getVideoAspectRatio (fun _ => .error "exit status 1") (fun _ => .ok []) "f" =
      .error "ffprobe error: exit status 1" ∧
    getVideoAspectRatio (fun _ => .ok "x") (fun _ => .error "invalid character") "f" =
      .error "couldn't parse ffprobe output: invalid character" ∧
    getVideoAspectRatio (fun _ => .ok "x") (fun _ => .ok []) "f" =
      .error "no video streams found" ∧
    getVideoAspectRatio (fun _ => .ok "x") (fun _ => .ok [⟨1920, 1080⟩, ⟨1080, 1920⟩]) "f" =
      .ok (classifyAspect 1920 1080) :=
  ⟨(getVideoAspectRatio_result (fun _ => .error "exit status 1") (fun _ => .ok []) "f").1
     "exit status 1" rfl,
   (getVideoAspectRatio_result (fun _ => .ok "x") (fun _ => .error "invalid character")
     "f").2.1 "x" "invalid character" rfl rfl,
   (getVideoAspectRatio_result (fun _ => .ok "x") (fun _ => .ok []) "f").2.2.1 "x" rfl rfl,
   ((getVideoAspectRatio_result (fun _ => .ok "x")
     (fun _ => .ok [⟨1920, 1080⟩, ⟨1080, 1920⟩]) "f").2.2.2 "x" ⟨1920, 1080⟩ [⟨1080, 1920⟩]
     rfl rfl).1⟩

/-- C10: a stream classified `16:9` is classified `9:16` once transposed, for
all positive dimensions; the converse fails, since 1080 x 2160 is `9:16` while
2160 x 1080 is `other`. -/
theorem classifyAspect_transpose_one_way :
    (∀ w h : ℤ, 0 < w → 0 < h → classifyAspect w h = "16:9" → classifyAspect h w = "9:16") ∧
    classifyAspect 1080 2160 = "9:16" ∧ classifyAspect 2160 1080 = "other" := by
  refine ⟨fun w h hw hh hc => transposed_horizontal_is_vertical hw hh hc, ?_, ?_⟩
  · rw [classifyAspect_int (by norm_num) (by norm_num)]
    decide
  · rw [classifyAspect_int (by norm_num) (by norm_num)]
    decide

/-- C10 on the 1920 x 1080 stream and its transpose. -/
theorem classifyAspect_transpose_one_way_witness :
    classifyAspect 1920 1080 = "16:9" ∧ classifyAspect 1080 1920 = "9:16" :=
  have h : classifyAspect 1920 1080 = "16:9" := by
    rw [classifyAspect_int (by norm_num) (by norm_num)]
    decide
  ⟨h, classifyAspect_transpose_one_way.1 1920 1080 (by norm_num) (by norm_num) h⟩

/-! ## The claims about the handlers -/

/-- C7 fails on the source for the video handler: at the path value `not-a-uuid`
`handlerUploadVideo` answers with status 500, where `handlerUploadThumbnail`
answers the same request with status 400. Neither runs a later step. -/
theorem handlerUploadVideo_bad_id_status :
    handlerUploadVideo demoConfig (demoRequest "not-a-uuid" "video/mp4") (demoDeps 1 []) =
      ⟨.error 500 "Couldn't parse file ID" (some "invalid UUID length"), []⟩ ∧
    handlerUploadThumbnail demoConfig (demoRequest "not-a-uuid" "image/png") (demoDeps 1 []) =
      ⟨.error 400 "Invalid ID" (some "invalid UUID length"), []⟩ := by
  decide

theorem isUpdate_eq_true {e : Effect} (h : e.isUpdate = true) :
    ∃ v ok, e = Effect.updateVideo v ok := by
  cases e <;> simp [Effect.isUpdate] at h
  exact ⟨_, _, rfl⟩

theorem video_update_count (cfg : apiConfig) (r : Request) (d : Deps) :
    (handlerUploadVideo cfg r d).effects.countP Effect.isUpdate ≤ 1 := by
  by_cases h : ∃ v ok, Effect.updateVideo v ok ∈ (handlerUploadVideo cfg r d).effects
  · obtain ⟨v, ok, hmem⟩ := h
    obtain ⟨_, _, _, _, _, _, _, _, _, _, _, _, _, _, _, _, _, _, _, _, _, heff, _⟩ :=
      handlerUploadVideo_update_inv cfg r d v ok hmem
    rw [heff]
    simp [List.countP_cons, Effect.isUpdate]
  · have : (handlerUploadVideo cfg r d).effects.countP Effect.isUpdate = 0 := by
      rw [List.countP_eq_zero]
      intro e he hu
      obtain ⟨v, ok, rfl⟩ := isUpdate_eq_true hu
      exact h ⟨v, ok, he⟩
    omega

theorem thumbnail_update_count (cfg : apiConfig) (r : Request) (d : Deps) :
    (handlerUploadThumbnail cfg r d).effects.countP Effect.isUpdate ≤ 1 := by
  by_cases h : ∃ v ok, Effect.updateVideo v ok ∈ (handlerUploadThumbnail cfg r d).effects
  · obtain ⟨v, ok, hmem⟩ := h
    obtain ⟨_, _, _, _, _, _, _, _, _, _, _, _, _, _, _, _, _, _, _, heff, _⟩ :=
      handlerUploadThumbnail_update_inv cfg r d v ok hmem
    rw [heff]
    simp [List.countP_cons, Effect.isUpdate]
  · have : (handlerUploadThumbnail cfg r d).effects.countP Effect.isUpdate = 0 := by
      rw [List.countP_eq_zero]
      intro e he hu
      obtain ⟨v, ok, rfl⟩ := isUpdate_eq_true hu
      exact h ⟨v, ok, he⟩
    omega

/-- C5: in both handlers `UpdateVideo` is called at most once; when it is called,
the storage step (the `PutObject` of the video, the byte copy of the thumbnail)
comes before it in the run and has succeeded; and when any step before the
commit fails, `UpdateVideo` is not called. -/
theorem update_once_after_storage (cfg : apiConfig) (r : Request) (d : Deps) :
    ((handlerUploadVideo cfg r d).effects.countP Effect.isUpdate ≤ 1 ∧
      (∀ v ok, Effect.updateVideo v ok ∈ (handlerUploadVideo cfg r d).effects →
        ∃ pre post key, (handlerUploadVideo cfg r d).effects =
            pre ++ Effect.updateVideo v ok :: post ∧
          Effect.putObject cfg.s3Bucket key "video/mp4" true ∈ pre) ∧
      (¬videoStepsSucceed cfg r d →
        ∀ e ∈ (handlerUploadVideo cfg r d).effects, e.isUpdate = false)) ∧
    ((handlerUploadThumbnail cfg r d).effects.countP Effect.isUpdate ≤ 1 ∧
      (∀ v ok, Effect.updateVideo v ok ∈ (handlerUploadThumbnail cfg r d).effects →
        ∃ pre post path, (handlerUploadThumbnail cfg r d).effects =
            pre ++ Effect.updateVideo v ok :: post ∧
          Effect.copyToAsset path true ∈ pre) ∧
      (¬thumbnailStepsSucceed cfg r d →
        ∀ e ∈ (handlerUploadThumbnail cfg r d).effects, e.isUpdate = false)) := by
  refine ⟨⟨video_update_count cfg r d, ?_, ?_⟩, ⟨thumbnail_update_count cfg r d, ?_, ?_⟩⟩
  · intro v ok hmem
    obtain ⟨videoID, token, videoMeta, header, tempFile, aspectRatio, name, -, -, -, -, -, -, -,
      -, -, -, -, -, -, -, heff, -⟩ := handlerUploadVideo_update_inv cfg r d v ok hmem
    refine ⟨[.parseForm defaultMaxMemory (r.formSpool defaultMaxMemory),
      .createTemp (.ok tempFile), .copyToTemp tempFile true, .seekTemp tempFile true,
      .probe tempFile,
      .putObject cfg.s3Bucket (filepathJoin [directoryOf aspectRatio, name]) "video/mp4" true],
      [.closeTemp tempFile, .removeTemp tempFile, .closeUpload],
      filepathJoin [directoryOf aspectRatio, name], ?_, ?_⟩
    · rw [heff]; rfl
    · simp
  · intro hn e he
    by_contra hu
    have hu' : e.isUpdate = true := by simpa using hu
    obtain ⟨v, ok, rfl⟩ := isUpdate_eq_true hu'
    obtain ⟨videoID, token, videoMeta, header, tempFile, aspectRatio, name, h1, h2, h3, h4, h5,
      h6, h7, h8, h9, h10, h11, h12, -⟩ := handlerUploadVideo_update_inv cfg r d v ok he
    exact hn ⟨videoID, token, videoMeta, header, tempFile, aspectRatio, name, h1, h2, h3, h4, h5,
      h6, h7, h8, h9, h10, h11, h12⟩
  · intro v ok hmem
    obtain ⟨videoID, token, videoMeta, header, contentType, name, -, -, -, -, -, -, -, -, -, -, -,
      -, -, heff, -⟩ := handlerUploadThumbnail_update_inv cfg r d v ok hmem
    refine ⟨[.logUpload videoID videoMeta.UserID,
      .parseForm (10 <<< 20) (r.formSpool (10 <<< 20)),
      .createAsset (getAssetDiskPath cfg.assetsRoot name) true,
      .copyToAsset (getAssetDiskPath cfg.assetsRoot name) true],
      [.closeAsset (getAssetDiskPath cfg.assetsRoot name), .closeUpload],
      getAssetDiskPath cfg.assetsRoot name, ?_, ?_⟩
    · rw [heff]; rfl
    · simp
  · intro hn e he
    by_contra hu
    have hu' : e.isUpdate = true := by simpa using hu
    obtain ⟨v, ok, rfl⟩ := isUpdate_eq_true hu'
    obtain ⟨videoID, token, videoMeta, header, contentType, name, h1, h2, h3, h4, h5, h6, h7, h8,
      h9, h10, h11, -⟩ := handlerUploadThumbnail_update_inv cfg r d v ok he
    exact hn ⟨videoID, token, videoMeta, header, contentType, name, h1, h2, h3, h4, h5, h6, h7,
      h8, h9, h10, h11⟩

/-- C5 on sample runs whose storage step fails: the `PutObject` of a video and
the byte copy of a thumbnail return an error, and no effect of either run is a
call of `UpdateVideo`. -/
theorem update_once_after_storage_witness :
    (∀ e ∈ (handlerUploadVideo demoConfig
        (demoRequest "00000000-0000-0000-0000-000000000007" "video/mp4")
        { demoDeps 1 [⟨1920, 1080⟩] with putObject := fun _ _ _ => .error "timeout" }).effects,
      e.isUpdate = false) ∧
    (∀ e ∈ (handlerUploadThumbnail demoConfig
        (demoRequest "00000000-0000-0000-0000-000000000007" "image/png")
        { demoDeps 1 [] with copyToAsset := .error "disk full" }).effects,
      e.isUpdate = false) :=
  ⟨(update_once_after_storage _ _ _).1.2.2 (by
      rintro ⟨_, _, _, _, _, _, _, -, -, -, -, -, -, -, -, -, -, -, h⟩
      exact absurd h (by simp [demoDeps])),
   (update_once_after_storage _ _ _).2.2.2 (by
      rintro ⟨_, _, _, _, _, _, -, -, -, -, -, -, -, -, -, -, h⟩
      exact absurd h (by simp [demoDeps]))⟩

/-- C6: in every run of `handlerUploadVideo` in which the staging file has been
created, the run ends by closing that file and then removing it, whatever the
later steps did, and the file is absent from the temporary directory after the
run. The creation is the first effect after the parse of the form. -/
theorem staging_file_removed (cfg : apiConfig) (r : Request) (d : Deps)
    (files : List String) (tmp : String)
    (h : Effect.createTemp (.ok tmp) ∈ (handlerUploadVideo cfg r d).effects) :
    (∃ mid : List Effect,
      (handlerUploadVideo cfg r d).effects =
        Effect.parseForm defaultMaxMemory (r.formSpool defaultMaxMemory) ::
          Effect.createTemp (.ok tmp) :: mid ++
            [.closeTemp tmp, .removeTemp tmp, .closeUpload] ∧
      ∀ e ∈ mid, e ≠ .closeTemp tmp ∧ e ≠ .removeTemp tmp) ∧
    tmp ∉ filesAfter files (handlerUploadVideo cfg r d).effects := by
  obtain ⟨mid, heff, hmid⟩ := handlerUploadVideo_staged cfg r d tmp h
  refine ⟨⟨mid, heff, hmid⟩, ?_⟩
  rw [heff]
  exact not_mem_filesAfter_removed files
    (Effect.parseForm defaultMaxMemory (r.formSpool defaultMaxMemory) ::
      Effect.createTemp (.ok tmp) :: mid) tmp

/-- C6 on two sample runs, one in which the probe reports no stream and one in
which `PutObject` fails: the staging file is gone after each. -/
theorem staging_file_removed_witness :
    "/tmp/video-upload.mp4-1" ∉ filesAfter ["/tmp/keep"]
      (handlerUploadVideo demoConfig
        (demoRequest "00000000-0000-0000-0000-000000000007" "video/mp4")
        (demoDeps 1 [])).effects ∧
    "/tmp/video-upload.mp4-1" ∉ filesAfter ["/tmp/keep"]
      (handlerUploadVideo demoConfig
        (demoRequest "00000000-0000-0000-0000-000000000007" "video/mp4")
        { demoDeps 1 [⟨1920, 1080⟩] with putObject := fun _ _ _ => .error "timeout" }).effects :=
  ⟨(staging_file_removed _ _ _ ["/tmp/keep"] "/tmp/video-upload.mp4-1" (by decide)).2,
   (staging_file_removed _ _ _ ["/tmp/keep"] "/tmp/video-upload.mp4-1" (by decide)).2⟩

/-- A success response of `handlerUploadVideo` comes after a successful call of
`UpdateVideo` on the record it carries. -/
theorem handlerUploadVideo_json (cfg : apiConfig) (r : Request) (d : Deps) (code : Nat)
    (payload : Video) (h : (handlerUploadVideo cfg r d).response = .json code payload) :
    Effect.updateVideo payload true ∈ (handlerUploadVideo cfg r d).effects := by
  have hs : (handlerUploadVideo cfg r d).response.isError = false := by
    rw [h]; rfl
  obtain ⟨videoID, token, videoMeta, header, h1, h2, h3, h4, h6, h7⟩ :=
    handlerUploadVideo_validated cfg r d (Or.inr hs)
  unfold handlerUploadVideo at h ⊢
  cases h9 : d.createTemp with
  | error e =>
    simp [h1, h2, h3, h4, h6, h7, h9, respond, Outcome.deferred, Outcome.after] at h
  | ok tempFile =>
  cases h10 : d.copyToTemp with
  | error e =>
    simp [h1, h2, h3, h4, h6, h7, h9, h10, respond, Outcome.deferred, Outcome.after] at h
  | ok u10 =>
  cases h11 : d.seekStart with
  | error e =>
    simp [h1, h2, h3, h4, h6, h7, h9, h10, h11, respond, Outcome.deferred, Outcome.after] at h
  | ok u11 =>
  cases h12 : getVideoAspectRatio d.ffprobe d.unmarshal tempFile with
  | error e =>
    simp [h1, h2, h3, h4, h6, h7, h9, h10, h11, h12, respond, Outcome.deferred,
      Outcome.after] at h
  | ok aspectRatio =>
  cases h13 : getAssetFullName "video/mp4" d.randRead d.nameAddr with
  | error e =>
    simp [h1, h2, h3, h4, h6, h7, h9, h10, h11, h12, h13, respond, Outcome.deferred,
      Outcome.after] at h
  | ok name =>
  cases h14 : d.putObject cfg.s3Bucket (filepathJoin [directoryOf aspectRatio, name])
      "video/mp4" with
  | error e =>
    simp [h1, h2, h3, h4, h6, h7, h9, h10, h11, h12, h13, h14, respond, Outcome.deferred,
      Outcome.after] at h
  | ok u14 =>
  cases h15 : d.updateVideo { videoMeta with
      VideoURL := some (videoURLOf cfg (filepathJoin [directoryOf aspectRatio, name])) } with
  | error e =>
    simp only [videoURLOf] at h15
    simp [h1, h2, h3, h4, h6, h7, h9, h10, h11, h12, h13, h14, h15, respond,
      Outcome.deferred, Outcome.after] at h
  | ok u15 =>
    simp only [videoURLOf] at h15
    simp [h1, h2, h3, h4, h6, h7, h9, h10, h11, h12, h13, h14, h15, respond,
      Outcome.deferred, Outcome.after, succeeded] at h ⊢
    exact h.2.symm

/-- The key of a generated name inside a partition: joining does not alter it. -/
theorem filepathJoin_generated {contentType : String} {randRead : Except String (List Nat)}
    {addr : Nat} {name : String} (aspectRatio : String)
    (hn : getAssetFullName contentType randRead addr = .ok name)
    (hext : '/' ∉ (getContentTypeExt contentType).data) :
    filepathJoin [directoryOf aspectRatio, name] = directoryOf aspectRatio ++ "/" ++ name := by
  cases hr : randRead with
  | error e => rw [hr] at hn; simp [getAssetFullName] at hn
  | ok base =>
    rw [hr, getAssetFullName_ok] at hn
    have hname : name = pointerText addr ++ getContentTypeExt contentType := by
      injection hn with hn
      exact hn.symm
    obtain ⟨t, ht, hdata⟩ := pointerText_data addr
    have hnd : name.data = '%' :: (t ++ (getContentTypeExt contentType).data) := by
      rw [hname, String.data_append, hdata]; rfl
    have hdir : '/' ∉ (directoryOf aspectRatio).data ∧
        (directoryOf aspectRatio).data ≠ [] ∧ (directoryOf aspectRatio).data ≠ ['.'] ∧
        (directoryOf aspectRatio).data ≠ ['.', '.'] := by
      unfold directoryOf
      split_ifs <;> decide
    apply filepathJoin_two _ _ hdir.1 _ hdir.2
    · rw [hnd]
      refine ⟨by simp, ?_, ?_⟩
      · intro e
        injection e with e1 e2
        exact absurd e1 (by decide)
      · intro e
        injection e with e1 e2
        exact absurd e1 (by decide)
    · rw [hnd]
      intro hm
      rcases List.mem_cons.mp hm with e | e
      · exact absurd e (by decide)
      · rcases List.mem_append.mp e with e | e
        · exact ht e
        · exact hext e

/-- C9: when `handlerUploadVideo` answers with success, the record it has passed
to `UpdateVideo` is the record fetched by `GetVideo` with only `VideoURL`
replaced, by `https://<bucket>.s3.<region>.amazonaws.com/<partition>/<name>`;
`<partition>/<name>` is the key given to `PutObject`, `<name>` is the name
generated for the request, and the partition is `landscape` for the classifier
result `16:9`, `portrait` for `9:16` and `other` for any other result. -/
theorem video_record_and_key (cfg : apiConfig) (r : Request) (d : Deps) (payload : Video)
    (h : (handlerUploadVideo cfg r d).response = .json StatusOK payload) :
    ∃ (videoID : UUID) (videoMeta : Video) (tempFile aspectRatio name partition : String),
      d.uuidParse r.pathVideoID = .ok videoID ∧
      d.getVideo videoID = .ok videoMeta ∧
      d.createTemp = .ok tempFile ∧
      getVideoAspectRatio d.ffprobe d.unmarshal tempFile = .ok aspectRatio ∧
      getAssetFullName "video/mp4" d.randRead d.nameAddr = .ok name ∧
      partition = (if aspectRatio = "16:9" then "landscape"
        else if aspectRatio = "9:16" then "portrait" else "other") ∧
      payload = { videoMeta with
        VideoURL := some ("https://" ++ cfg.s3Bucket ++ ".s3." ++ cfg.s3Region ++
          ".amazonaws.com/" ++ partition ++ "/" ++ name) } ∧
      Effect.putObject cfg.s3Bucket (partition ++ "/" ++ name) "video/mp4" true ∈
        (handlerUploadVideo cfg r d).effects ∧
      Effect.updateVideo payload true ∈ (handlerUploadVideo cfg r d).effects ∧
      ∀ v ok, Effect.updateVideo v ok ∈ (handlerUploadVideo cfg r d).effects →
        v = payload ∧ ok = true := by
  have hmem := handlerUploadVideo_json cfg r d StatusOK payload h
  obtain ⟨videoID, token, videoMeta, header, tempFile, aspectRatio, name, h1, h2, h3, h4, h5, h6,
    h7, h8, h9, h10, h11, h12, hv, hok, heff, hresp⟩ :=
    handlerUploadVideo_update_inv cfg r d payload true hmem
  have hkey : filepathJoin [directoryOf aspectRatio, name] =
      directoryOf aspectRatio ++ "/" ++ name :=
    filepathJoin_generated aspectRatio h11 (by decide)
  rw [hkey] at hv heff
  refine ⟨videoID, videoMeta, tempFile, aspectRatio, name, directoryOf aspectRatio, h1, h4, h7,
    h10, h11, rfl, ?_, ?_, hmem, ?_⟩
  · rw [hv]
    simp [videoURLOf, String.append_assoc]
  · rw [heff]
    simp
  · intro v ok hm
    rw [heff] at hm
    simpa using hm

/-- A 1920 x 1080 upload by the owner, every collaborator succeeding. -/
theorem demo_video_run :
    handlerUploadVideo demoConfig
        (demoRequest "00000000-0000-0000-0000-000000000007" "video/mp4")
        (demoDeps 1 [⟨1920, 1080⟩]) =
      ⟨.json 200 { demoVideo with VideoURL := some demoVideoURL },
        [.parseForm defaultMaxMemory [],
         .createTemp (.ok "/tmp/video-upload.mp4-1"),
         .copyToTemp "/tmp/video-upload.mp4-1" true,
         .seekTemp "/tmp/video-upload.mp4-1" true,
         .probe "/tmp/video-upload.mp4-1",
         .putObject "tubely" "landscape/%!s(*string=0xc000014070).mp4" "video/mp4" true,
         .updateVideo { demoVideo with VideoURL := some demoVideoURL }
           true,
         .closeTemp "/tmp/video-upload.mp4-1",
         .removeTemp "/tmp/video-upload.mp4-1",
         .closeUpload]⟩ := by
  have hc : classifyAspect 1920 1080 = "16:9" := by
    rw [classifyAspect_int (by norm_num) (by norm_num)]
    decide
  have hd : directoryOf "16:9" = "landscape" := by decide
  have hn : getAssetFullName "video/mp4" (.ok (List.replicate 32 0)) 0xc000014070 =
      .ok "%!s(*string=0xc000014070).mp4" := by decide
  have hj : filepathJoin ["landscape", "%!s(*string=0xc000014070).mp4"] =
      "landscape/%!s(*string=0xc000014070).mp4" := by decide
  simp only [handlerUploadVideo, demoRequest, demoDeps, getVideoAspectRatio, hc, hd, hn, hj,
    demoConfig, demoVideo, demoVideoURL, respond, Outcome.after, Outcome.deferred, succeeded]
  decide

/-- C9 on the sample upload of a 1920 x 1080 video: the response is a success
and the record it carries was passed to `UpdateVideo`. -/
theorem video_record_and_key_witness :
    (handlerUploadVideo demoConfig
        (demoRequest "00000000-0000-0000-0000-000000000007" "video/mp4")
        (demoDeps 1 [⟨1920, 1080⟩])).response =
      .json StatusOK { demoVideo with VideoURL := some demoVideoURL } ∧
    Effect.updateVideo { demoVideo with VideoURL := some demoVideoURL } true ∈
      (handlerUploadVideo demoConfig
        (demoRequest "00000000-0000-0000-0000-000000000007" "video/mp4")
        (demoDeps 1 [⟨1920, 1080⟩])).effects :=
  have h : (handlerUploadVideo demoConfig
        (demoRequest "00000000-0000-0000-0000-000000000007" "video/mp4")
        (demoDeps 1 [⟨1920, 1080⟩])).response =
      .json StatusOK { demoVideo with VideoURL := some demoVideoURL } := by
    rw [demo_video_run]; rfl
  ⟨h, (video_record_and_key _ _ _ _ h).elim
    fun _ h1 => h1.elim fun _ h2 => h2.elim fun _ h3 => h3.elim fun _ h4 => h4.elim
      fun _ h5 => h5.elim fun _ h6 => h6.2.2.2.2.2.2.2.2.1⟩

end Tubely
